import Mathlib

/-!
Verification of the rolia story-engine core against its specification.

Shallow embedding of `src/story-engine` (Python) in Lean 4:
pure functions become Lean functions over `Int`, `ℚ`, `String` and lists;
Python dicts become association lists (insertion order preserved);
Python float arithmetic is modelled exactly over `ℚ`;
`int(x)` (truncation toward zero) is modelled by `intTrunc`;
code that can raise returns `Except String _`.
-/

namespace Rolia

/-- Python `int(x)` on a rational: truncation toward zero. -/
def intTrunc (q : ℚ) : Int := q.num.tdiv (q.den : Int)

/-- Clamp an integer score into [0,100]: `max(0, min(100, x))`. -/
def clamp100 (x : Int) : Int := max 0 (min 100 x)

/-- Dict lookup with default: `m.get(k, d)` on an association list. -/
def lookupD (m : List (String × Int)) (k : String) (d : Int) : Int :=
  match m.find? (fun p => p.1 == k) with
  | some p => p.2
  | none => d

/-- Dict write `m[k] = v`: update in place if the key exists, else append
(mirrors Python dict insertion-order semantics). -/
def setKV (m : List (String × Int)) (k : String) (v : Int) : List (String × Int) :=
  if m.any (fun p => p.1 == k) then
    m.map (fun p => if p.1 == k then (k, v) else p)
  else
    m ++ [(k, v)]

/-! ## Karma system (`services/karma_system.py`) -/

/-- `KarmaSystem.KARMA_LEVELS`: six inclusive ranges with (name, description). -/
def KARMA_LEVELS : List ((Int × Int) × (String × String)) :=
  [ ((90, 100), ("heroico", "Leyenda viviente, símbolo de esperanza")),
    ((70, 89), ("honorable", "Respetado defensor del bien")),
    ((50, 69), ("neutral", "Pragmático, ni héroe ni villano")),
    ((30, 49), ("dudoso", "Cuestionable, motivos sospechosos")),
    ((10, 29), ("infame", "Temido y despreciado")),
    ((0, 9), ("villano", "Encarnación de la maldad")) ]

/-- `KarmaSystem.get_karma_level`. -/
def getKarmaLevel (karma : Int) : String × String :=
  let k := clamp100 karma
  match KARMA_LEVELS.find? (fun e => e.1.1 ≤ k && k ≤ e.1.2) with
  | some e => e.2
  | none => ("neutral", "Estado desconocido")

/-- `KarmaSystem.apply_karma_change`. -/
def applyKarmaChange (currentKarma : Int) (change : Int) : Int × Bool :=
  let oldLevel := (getKarmaLevel currentKarma).1
  let newKarma := clamp100 (currentKarma + change)
  let newLevel := (getKarmaLevel newKarma).1
  (newKarma, oldLevel != newLevel)

/-- `config.KARMA_ACTIONS`. -/
def KARMA_ACTIONS : List (String × Int) :=
  [ ("helped_innocent", 10), ("showed_mercy", 15), ("kept_promise", 10),
    ("donated_to_poor", 12), ("exposed_corruption", 20), ("saved_life", 25),
    ("protected_weak", 15), ("told_truth", 5), ("forgave_enemy", 20),
    ("self_sacrifice", 30),
    ("lied_for_gain", -5), ("stole", -8), ("killed_unarmed", -20),
    ("betrayed_ally", -30), ("broke_promise", -15), ("tortured", -25),
    ("killed_innocent", -40), ("abandoned_ally", -20), ("blackmailed", -15),
    ("poisoned", -20) ]

/-- One faction's configured thresholds (`config.FACTION_THRESHOLDS` entry).
`discount`/`ban` appear in the config but are never read by
`update_faction_standing`. -/
structure FactionThresholds where
  trust_threshold : Option Int := none
  betray_threshold : Option Int := none
  hero_threshold : Option Int := none
  villain_threshold : Option Int := none
  recruit_threshold : Option Int := none
  discount_threshold : Option Int := none
  ban_threshold : Option Int := none
deriving Repr, DecidableEq

/-- `config.FACTION_THRESHOLDS`. -/
def FACTION_THRESHOLDS (f : String) : Option FactionThresholds :=
  if f = "corona" then
    some { trust_threshold := some 60, betray_threshold := some 30,
           hero_threshold := some 80 }
  else if f = "pueblo" then
    some { hero_threshold := some 80, villain_threshold := some 20 }
  else if f = "orden_llama" then
    some { recruit_threshold := some (-40) }
  else if f = "gremio_mercaderes" then
    some { discount_threshold := some 70, ban_threshold := some 20 }
  else none

/-- `faction_relations` table inside `update_faction_standing`. -/
def factionRelations (f : String) : List (String × ℚ) :=
  if f = "corona" then [("orden_llama", -(1/2 : ℚ))]
  else if f = "orden_llama" then [("corona", -(3/10 : ℚ)), ("pueblo", -(1/5 : ℚ))]
  else if f = "rebeldes" then [("corona", -(3/10 : ℚ))]
  else []

/-- The `trust_threshold` block of `update_faction_standing`
(`if old_value < threshold <= new_value ... elif ...`). -/
def trustBlock (faction : String) (t : Option Int) (oldValue newValue : Int) :
    List String :=
  match t with
  | some x =>
    if oldValue < x ∧ x ≤ newValue then [faction ++ "_trust_gained"]
    else if oldValue ≥ x ∧ x > newValue then [faction ++ "_trust_lost"]
    else []
  | none => []

/-- An upward-crossing block (`hero_threshold` shape). -/
def upBlock (faction suffix : String) (t : Option Int) (oldValue newValue : Int) :
    List String :=
  match t with
  | some x => if oldValue < x ∧ x ≤ newValue then [faction ++ suffix] else []
  | none => []

/-- A downward-crossing block (`betray_threshold` / `villain_threshold` shape). -/
def downBlock (faction suffix : String) (t : Option Int) (oldValue newValue : Int) :
    List String :=
  match t with
  | some x => if oldValue ≥ x ∧ x > newValue then [faction ++ suffix] else []
  | none => []

/-- The `recruit_threshold` block (`if old_value > threshold >= new_value`). -/
def recruitBlock (faction : String) (t : Option Int) (oldValue newValue : Int) :
    List String :=
  match t with
  | some x =>
    if oldValue > x ∧ x ≥ newValue then [faction ++ "_recruitment_attempt"] else []
  | none => []

/-- Threshold-crossing events emitted for the primary faction
(the five `if "..._threshold" in thresholds` blocks, in source order). -/
def factionEvents (faction : String) (oldValue newValue : Int) : List String :=
  match FACTION_THRESHOLDS faction with
  | none => []
  | some th =>
    trustBlock faction th.trust_threshold oldValue newValue ++
    downBlock faction "_turned_hostile" th.betray_threshold oldValue newValue ++
    upBlock faction "_hero_status" th.hero_threshold oldValue newValue ++
    downBlock faction "_villain_status" th.villain_threshold oldValue newValue ++
    recruitBlock faction th.recruit_threshold oldValue newValue

/-- Relation propagation: a fraction of the delta is applied to hard-coded
related factions already present in the standings, clamped to [0,100].
`int(change * ratio)` is modelled exactly over `ℚ` with truncation toward
zero (the Python float product can differ from the exact product by one
ulp, which cannot affect any property proved here). -/
def applyFactionRelations (ns : List (String × Int)) (faction : String)
    (change : Int) : List (String × Int) :=
  (factionRelations faction).foldl
    (fun acc rel =>
      if acc.any (fun p => p.1 == rel.1) then
        let relatedChange := intTrunc ((change : ℚ) * rel.2)
        setKV acc rel.1 (clamp100 (lookupD acc rel.1 50 + relatedChange))
      else acc)
    ns

/-- `KarmaSystem.update_faction_standing`. -/
def updateFactionStanding (currentStandings : List (String × Int))
    (faction : String) (change : Int) : List (String × Int) × List String :=
  let oldValue := lookupD currentStandings faction 50
  let newValue := clamp100 (oldValue + change)
  let ns := setKV currentStandings faction newValue
  let events := factionEvents faction oldValue newValue
  let ns2 := applyFactionRelations ns faction change
  (ns2, events)

/-- Spec-side predicate: the pre/post values straddle a configured threshold
crossing upward (`old < t <= new`). -/
def straddleUp (t : Option Int) (oldValue newValue : Int) : Bool :=
  match t with
  | some x => decide (oldValue < x) && decide (x ≤ newValue)
  | none => false

/-- Spec-side predicate: downward crossing (`old >= t > new`). -/
def straddleDown (t : Option Int) (oldValue newValue : Int) : Bool :=
  match t with
  | some x => decide (oldValue ≥ x) && decide (x > newValue)
  | none => false

/-- Spec-side predicate: the recruit crossing (`old > t >= new`). -/
def straddleRecruit (t : Option Int) (oldValue newValue : Int) : Bool :=
  match t with
  | some x => decide (oldValue > x) && decide (x ≥ newValue)
  | none => false

/-- The thresholds configured for a faction (all-`none` when unconfigured). -/
def thresholdsOf (faction : String) : FactionThresholds :=
  (FACTION_THRESHOLDS faction).getD {}

lemma clamp100_bounds (x : Int) : 0 ≤ clamp100 x ∧ clamp100 x ≤ 100 :=
  ⟨le_max_left _ _, max_le (by norm_num) (min_le_left _ _)⟩

lemma setKV_bounds {m : List (String × Int)} {k : String} {v : Int}
    (hm : ∀ p ∈ m, 0 ≤ p.2 ∧ p.2 ≤ 100) (hv : 0 ≤ v ∧ v ≤ 100) :
    ∀ p ∈ setKV m k v, 0 ≤ p.2 ∧ p.2 ≤ 100 := by
  intro p hp
  unfold setKV at hp
  split at hp
  · obtain ⟨q, hq, rfl⟩ := List.mem_map.mp hp
    by_cases hb : q.1 == k
    · rw [if_pos hb]
      exact hv
    · rw [if_neg hb]
      exact hm q hq
  · rcases List.mem_append.mp hp with h | h
    · exact hm p h
    · simp only [List.mem_singleton] at h
      subst h
      exact hv

lemma applyFactionRelations_bounds {ns : List (String × Int)} (faction : String)
    (change : Int) (h : ∀ p ∈ ns, 0 ≤ p.2 ∧ p.2 ≤ 100) :
    ∀ p ∈ applyFactionRelations ns faction change, 0 ≤ p.2 ∧ p.2 ≤ 100 := by
  unfold applyFactionRelations
  generalize factionRelations faction = rels
  induction rels generalizing ns with
  | nil => simpa using h
  | cons r rs ih =>
    simp only [List.foldl_cons]
    apply ih
    split
    · exact setKV_bounds h (clamp100_bounds _)
    · exact h

lemma straddleUp_some (x o n : Int) :
    straddleUp (some x) o n = true ↔ o < x ∧ x ≤ n := by
  simp [straddleUp]

lemma straddleDown_some (x o n : Int) :
    straddleDown (some x) o n = true ↔ o ≥ x ∧ x > n := by
  simp [straddleDown]

lemma straddleRecruit_some (x o n : Int) :
    straddleRecruit (some x) o n = true ↔ o > x ∧ x ≥ n := by
  simp [straddleRecruit]

lemma trustBlock_eq (f : String) (t : Option Int) (o n : Int) :
    trustBlock f t o n =
      (if straddleUp t o n then [f ++ "_trust_gained"] else []) ++
      (if straddleDown t o n then [f ++ "_trust_lost"] else []) := by
  cases t with
  | none => simp [trustBlock, straddleUp, straddleDown]
  | some x =>
    by_cases h1 : o < x ∧ x ≤ n
    · rw [trustBlock, if_pos h1, if_pos ((straddleUp_some x o n).mpr h1),
        if_neg (by rw [straddleDown_some]; omega)]
      exact (List.append_nil _).symm
    · by_cases h2 : o ≥ x ∧ x > n
      · rw [trustBlock, if_neg h1, if_pos h2,
          if_neg (by rw [straddleUp_some]; omega),
          if_pos ((straddleDown_some x o n).mpr h2)]
        rfl
      · rw [trustBlock, if_neg h1, if_neg h2,
          if_neg (by rw [straddleUp_some]; omega),
          if_neg (by rw [straddleDown_some]; omega)]
        rfl

lemma upBlock_eq (f sfx : String) (t : Option Int) (o n : Int) :
    upBlock f sfx t o n = (if straddleUp t o n then [f ++ sfx] else []) := by
  cases t with
  | none => simp [upBlock, straddleUp]
  | some x =>
    by_cases h : o < x ∧ x ≤ n
    · rw [upBlock, if_pos h, if_pos ((straddleUp_some x o n).mpr h)]
    · rw [upBlock, if_neg h, if_neg (by rw [straddleUp_some]; omega)]

lemma downBlock_eq (f sfx : String) (t : Option Int) (o n : Int) :
    downBlock f sfx t o n = (if straddleDown t o n then [f ++ sfx] else []) := by
  cases t with
  | none => simp [downBlock, straddleDown]
  | some x =>
    by_cases h : o ≥ x ∧ x > n
    · rw [downBlock, if_pos h, if_pos ((straddleDown_some x o n).mpr h)]
    · rw [downBlock, if_neg h, if_neg (by rw [straddleDown_some]; omega)]

lemma recruitBlock_eq (f : String) (t : Option Int) (o n : Int) :
    recruitBlock f t o n =
      (if straddleRecruit t o n then [f ++ "_recruitment_attempt"] else []) := by
  cases t with
  | none => simp [recruitBlock, straddleRecruit]
  | some x =>
    by_cases h : o > x ∧ x ≥ n
    · rw [recruitBlock, if_pos h, if_pos ((straddleRecruit_some x o n).mpr h)]
    · rw [recruitBlock, if_neg h, if_neg (by rw [straddleRecruit_some]; omega)]

lemma factionEvents_eq (f : String) (o n : Int) :
    factionEvents f o n =
      (if straddleUp (thresholdsOf f).trust_threshold o n
        then [f ++ "_trust_gained"] else []) ++
      (if straddleDown (thresholdsOf f).trust_threshold o n
        then [f ++ "_trust_lost"] else []) ++
      (if straddleDown (thresholdsOf f).betray_threshold o n
        then [f ++ "_turned_hostile"] else []) ++
      (if straddleUp (thresholdsOf f).hero_threshold o n
        then [f ++ "_hero_status"] else []) ++
      (if straddleDown (thresholdsOf f).villain_threshold o n
        then [f ++ "_villain_status"] else []) ++
      (if straddleRecruit (thresholdsOf f).recruit_threshold o n
        then [f ++ "_recruitment_attempt"] else []) := by
  unfold factionEvents thresholdsOf
  cases h : FACTION_THRESHOLDS f with
  | none => simp [straddleUp, straddleDown, straddleRecruit, Option.getD]
  | some th =>
    simp only [Option.getD_some]
    rw [trustBlock_eq, upBlock_eq, downBlock_eq, downBlock_eq, recruitBlock_eq]

/-- **C4.** `apply_karma_change` clamps the sum into [0,100]; `level_changed`
holds exactly when the level names of old and new karma differ; and karma 50
with delta −60 yields karma 0 with a level change from "neutral" to
"villano". -/
theorem claim_C4 (k d : Int) :
    (applyKarmaChange k d).1 = max 0 (min 100 (k + d)) ∧
    (0 ≤ (applyKarmaChange k d).1 ∧ (applyKarmaChange k d).1 ≤ 100) ∧
    ((applyKarmaChange k d).2 = true ↔
      (getKarmaLevel k).1 ≠ (getKarmaLevel (max 0 (min 100 (k + d)))).1) ∧
    applyKarmaChange 50 (-60) = (0, true) ∧
    (getKarmaLevel 50).1 = "neutral" ∧
    (getKarmaLevel 0).1 = "villano" := by
  refine ⟨rfl, clamp100_bounds _, ?_, by decide, by decide, by decide⟩
  simp only [applyKarmaChange, clamp100, bne_iff_ne, ne_eq]

/-- **C2.** `update_faction_standing`: (a) output standings stay in [0,100]
when the input standings are in [0,100]; (b) the emitted events are exactly
the threshold events of the primary faction whose pre/post values straddle
the configured threshold in its configured direction — in particular the
relation propagation to related/opposing factions emits no event. -/
theorem claim_C2 (standings : List (String × Int)) (faction : String)
    (change : Int) (hin : ∀ p ∈ standings, 0 ≤ p.2 ∧ p.2 ≤ 100) :
    (∀ p ∈ (updateFactionStanding standings faction change).1,
      0 ≤ p.2 ∧ p.2 ≤ 100) ∧
    (updateFactionStanding standings faction change).2 =
      (if straddleUp (thresholdsOf faction).trust_threshold
          (lookupD standings faction 50)
          (clamp100 (lookupD standings faction 50 + change))
        then [faction ++ "_trust_gained"] else []) ++
      (if straddleDown (thresholdsOf faction).trust_threshold
          (lookupD standings faction 50)
          (clamp100 (lookupD standings faction 50 + change))
        then [faction ++ "_trust_lost"] else []) ++
      (if straddleDown (thresholdsOf faction).betray_threshold
          (lookupD standings faction 50)
          (clamp100 (lookupD standings faction 50 + change))
        then [faction ++ "_turned_hostile"] else []) ++
      (if straddleUp (thresholdsOf faction).hero_threshold
          (lookupD standings faction 50)
          (clamp100 (lookupD standings faction 50 + change))
        then [faction ++ "_hero_status"] else []) ++
      (if straddleDown (thresholdsOf faction).villain_threshold
          (lookupD standings faction 50)
          (clamp100 (lookupD standings faction 50 + change))
        then [faction ++ "_villain_status"] else []) ++
      (if straddleRecruit (thresholdsOf faction).recruit_threshold
          (lookupD standings faction 50)
          (clamp100 (lookupD standings faction 50 + change))
        then [faction ++ "_recruitment_attempt"] else []) := by
  constructor
  · exact applyFactionRelations_bounds faction change
      (setKV_bounds hin (clamp100_bounds _))
  · exact factionEvents_eq faction _ _

/-- Witness for C2: concrete update, standing 45 + 20 = 65 crosses corona's
trust threshold 60 upward and emits exactly `corona_trust_gained`. -/
theorem claim_C2_witness :
    (∀ p ∈ (updateFactionStanding [("corona", 45)] "corona" 20).1,
      0 ≤ p.2 ∧ p.2 ≤ 100) ∧
    (updateFactionStanding [("corona", 45)] "corona" 20).2 =
      ["corona_trust_gained"] := by
  have h := claim_C2 [("corona", 45)] "corona" 20 (by decide)
  refine ⟨h.1, ?_⟩
  rw [h.2]
  decide

/-! ## NPC brain (`services/npc_brain.py`, models in `models/npc.py`)

`datetime` (`last_interaction`) and the opaque `custom_state` dict are not
relevant to any computation here and are omitted from the embedding. -/

/-- `models.npc.NPCPersonality`. -/
structure NPCPersonality where
  cunning : Int := 50
  loyalty : Int := 50
  patience : Int := 50
  pride : Int := 50
  cruelty : Int := 50
  compassion : Int := 50
  courage : Int := 50
  greed : Int := 50
  honor : Int := 50
  wisdom : Int := 50
deriving Repr, DecidableEq

/-- `models.npc.NPCState`. -/
structure NPCState where
  npc_id : Int
  code : String
  name : String
  apparent_role : String
  true_role : Option String := none
  personality : NPCPersonality := {}
  secrets : List String := []
  betrayal_threshold : Option Int := none
  redemption_threshold : Option Int := none
  is_major : Bool := false
deriving Repr, DecidableEq

/-- `models.npc.NPCRelationship`. -/
structure NPCRelationship where
  room_id : Int
  npc_id : Int
  npc_code : String
  npc_name : String
  relationship_score : Int := 50
  trust_level : Int := 50
  known_secrets : List String := []
  interactions_count : Int := 0
  emotional_state : String := "neutral"
  betrayal_triggered : Bool := false
  redemption_triggered : Bool := false
deriving Repr, DecidableEq

/-- `models.npc.NPCReaction`. -/
structure NPCReaction where
  npc_code : String
  npc_name : String
  emotional_response : String
  relationship_change : Int := 0
  trust_change : Int := 0
  dialogue_tone : String := "neutral"
  dialogue_hints : List String := []
  reveals_secret : Option String := none
  triggers_betrayal : Bool := false
  triggers_redemption : Bool := false
  behavior_notes : List String := []
deriving Repr, DecidableEq

/-- `Settings.betrayal_threshold_default` (config default). -/
def betrayalThresholdDefault : Int := 30

/-- `Settings.redemption_threshold_default` (config default). -/
def redemptionThresholdDefault : Int := 80

/-- Python truthiness of an optional string (`None` and `""` are falsy). -/
def pyTruthyStrOpt : Option String → Bool
  | none => false
  | some s => s != ""

/-- `NPCBrain.TRAIT_REACTION_MODIFIERS` (float values modelled over `ℚ`). -/
def TRAIT_REACTION_MODIFIERS : List (String × List (String × ℚ)) :=
  [ ("cunning", [("deception", 3/10), ("direct_attack", -(1/10))]),
    ("loyalty", [("betrayal", -(1/2)), ("kept_promise", 3/10)]),
    ("compassion", [("helped_innocent", 4/10), ("cruelty", -(4/10))]),
    ("pride", [("disrespect", -(4/10)), ("flattery", 2/10)]),
    ("cruelty", [("mercy", -(2/10)), ("ruthless", 2/10)]),
    ("honor", [("kept_promise", 3/10), ("betrayal", -(4/10)), ("fair_fight", 2/10)]),
    ("greed", [("bribe", 3/10), ("generous", -(1/10))]) ]

/-- `NPCBrain.EMOTIONAL_TRANSITIONS`. -/
def EMOTIONAL_TRANSITIONS : List (String × List (String × String)) :=
  [ ("neutral",
      [("positive_action", "friendly"), ("negative_action", "suspicious"),
       ("threat", "fearful"), ("kindness", "grateful")]),
    ("friendly",
      [("positive_action", "friendly"), ("negative_action", "suspicious"),
       ("betrayal", "hostile"), ("continued_kindness", "grateful")]),
    ("suspicious",
      [("positive_action", "neutral"), ("continued_negative", "hostile"),
       ("proof_of_innocence", "neutral")]),
    ("hostile",
      [("positive_action", "suspicious"), ("major_kindness", "neutral"),
       ("continued_aggression", "hostile")]),
    ("grateful",
      [("continued_kindness", "grateful"), ("negative_action", "sad"),
       ("betrayal", "hostile")]),
    ("fearful",
      [("reassurance", "neutral"), ("continued_threat", "desperate"),
       ("protection", "grateful")]) ]

/-- Generic association-list lookup (Python `dict.get`). -/
def alistGet {α : Type} (m : List (String × α)) (k : String) : Option α :=
  match m.find? (fun p => p.1 == k) with
  | some p => some p.2
  | none => none

/-- `NPCBrain._get_base_reaction`: base (relationship, trust) deltas. -/
def getBaseReaction (actionType : String) : Int × Int :=
  (alistGet
    [ ("friendly", ((5 : Int), (3 : Int))), ("helped", (10, 8)), ("gift", (8, 5)),
      ("defended", (15, 12)), ("saved", (25, 20)), ("trusted", (5, 10)),
      ("honest", (3, 8)), ("respected", (5, 3)),
      ("hostile", (-5, -5)), ("insulted", (-8, -5)), ("threatened", (-10, -15)),
      ("attacked", (-20, -25)), ("lied", (-5, -15)), ("stole", (-15, -20)),
      ("betrayed", (-30, -40)),
      ("neutral", (0, 0)), ("professional", (1, 2)), ("distant", (-2, -1)),
      ("confrontation", (-5, 0)), ("seductive", (5, -2)), ("deceptive", (0, -10)) ]
    actionType).getD (0, 0)

/-- `personality.model_dump()`: fields in declaration order. -/
def personalityDict (p : NPCPersonality) : List (String × Int) :=
  [ ("cunning", p.cunning), ("loyalty", p.loyalty), ("patience", p.patience),
    ("pride", p.pride), ("cruelty", p.cruelty), ("compassion", p.compassion),
    ("courage", p.courage), ("greed", p.greed), ("honor", p.honor),
    ("wisdom", p.wisdom) ]

/-- `NPCBrain._apply_personality_modifiers` (`action_details` is unused by the
source body and omitted). -/
def applyPersonalityModifiers (p : NPCPersonality) (actionType : String) :
    ℚ × ℚ :=
  (personalityDict p).foldl
    (fun acc tv =>
      match alistGet TRAIT_REACTION_MODIFIERS tv.1 with
      | none => acc
      | some traitReactions =>
        match alistGet traitReactions actionType with
        | none => acc
        | some m =>
          let strength : ℚ := (tv.2 : ℚ) / 100
          let modifier := m * strength
          (acc.1 + modifier, acc.2 + modifier * (8/10)))
    (0, 0)

/-- `action_to_trigger` table in `_calculate_emotional_transition`. -/
def actionToTrigger : List (String × String) :=
  [ ("friendly", "positive_action"), ("helped", "positive_action"),
    ("gift", "positive_action"), ("defended", "major_kindness"),
    ("saved", "major_kindness"), ("trusted", "positive_action"),
    ("hostile", "negative_action"), ("insulted", "negative_action"),
    ("threatened", "threat"), ("attacked", "continued_aggression"),
    ("lied", "negative_action"), ("betrayed", "betrayal") ]

/-- `NPCBrain._calculate_emotional_transition`. -/
def calculateEmotionalTransition (currentState actionType : String)
    (relationChange : Int) : String :=
  let trigger? :=
    match alistGet actionToTrigger actionType with
    | some t => some t
    | none =>
      if relationChange > 5 then some "positive_action"
      else if relationChange < -5 then some "negative_action"
      else none
  match trigger? with
  | none => currentState
  | some trigger =>
    match alistGet EMOTIONAL_TRANSITIONS currentState with
    | some transitions => (alistGet transitions trigger).getD currentState
    | none => currentState

/-- `state_hints` table in `_generate_dialogue_hints`. -/
def stateHints : List (String × List String) :=
  [ ("friendly", ["Sonríe genuinamente", "Tono cálido y acogedor"]),
    ("suspicious", ["Entrecierra los ojos", "Respuestas cautelosas"]),
    ("hostile", ["Tono cortante", "Postura defensiva"]),
    ("grateful", ["Expresión de agradecimiento", "Disposición a ayudar"]),
    ("fearful", ["Voz temblorosa", "Evita confrontación directa"]),
    ("nervous", ["Se toca el cuello/manos nerviosamente", "Evita el contacto visual"]),
    ("calculating", ["Pausa antes de responder", "Elige las palabras con cuidado"]) ]

/-- `NPCBrain._generate_dialogue_hints`. -/
def generateDialogueHints (npc : NPCState) (rel : NPCRelationship)
    (actionType newState : String) : List String :=
  let hints := (alistGet stateHints newState).getD []
  let hints := hints ++
    (if npc.personality.pride > 70 then ["Mantiene postura altiva y digna"] else [])
  let hints := hints ++
    (if npc.personality.cunning > 70
      then ["Respuestas con doble sentido o ambiguas"] else [])
  let hints := hints ++
    (if npc.personality.compassion > 70 ∧ (actionType = "helped" ∨ actionType = "saved")
      then ["Muestra emoción genuina"] else [])
  hints ++
    (if npc.secrets ≠ [] ∧ rel.trust_level < 60
      then ["Evita ciertos temas o cambia de tema sutilmente"] else [])

/-- `NPCBrain._check_secret_reveal`. -/
def checkSecretReveal (npc : NPCState) (rel : NPCRelationship)
    (actionType : String) (relationChange : Int) : Option String :=
  if npc.secrets = [] then none
  else
    let unknown := npc.secrets.filter (fun s => ¬ rel.known_secrets.contains s)
    if unknown = [] then none
    else
      let newTrust := rel.trust_level + relationChange
      if newTrust ≥ 80 ∧ (actionType = "saved" ∨ actionType = "defended" ∨
          actionType = "trusted") then
        unknown.head?
      else if newTrust ≥ 70 ∧ rel.interactions_count ≥ 5 ∧
          (actionType = "friendly" ∨ actionType = "helped" ∨ actionType = "honest") then
        unknown.head?
      else none

/-- Effective betrayal threshold: `npc.betrayal_threshold or default` —
Python `or` falls back to the default when the configured value is `None`
*or* `0` (integer 0 is falsy). -/
def effBetrayalThreshold (npc : NPCState) : Int :=
  match npc.betrayal_threshold with
  | some t => if t ≠ 0 then t else betrayalThresholdDefault
  | none => betrayalThresholdDefault

/-- Effective redemption threshold (same Python `or` semantics). -/
def effRedemptionThreshold (npc : NPCState) : Int :=
  match npc.redemption_threshold with
  | some t => if t ≠ 0 then t else redemptionThresholdDefault
  | none => redemptionThresholdDefault

/-- `NPCBrain._check_betrayal_trigger`. -/
def checkBetrayalTrigger (npc : NPCState) (rel : NPCRelationship)
    (relationChange : Int) : Bool :=
  if rel.betrayal_triggered then false
  else if ¬ pyTruthyStrOpt npc.true_role ∨ npc.true_role = some npc.apparent_role
    then false
  else decide (rel.relationship_score + relationChange < effBetrayalThreshold npc)

/-- `NPCBrain._check_redemption_trigger`. -/
def checkRedemptionTrigger (npc : NPCState) (rel : NPCRelationship)
    (relationChange : Int) : Bool :=
  if rel.redemption_triggered then false
  else if ¬ pyTruthyStrOpt npc.true_role ∨ npc.true_role = some npc.apparent_role
    then false
  else decide (rel.relationship_score + relationChange ≥ effRedemptionThreshold npc)

/-- `NPCBrain._generate_behavior_notes`. -/
def generateBehaviorNotes (npc : NPCState) (rel : NPCRelationship)
    (emotionalState : String) : List String :=
  let notes :=
    if pyTruthyStrOpt npc.true_role ∧ npc.true_role ≠ some npc.apparent_role then
      if npc.true_role = some "traitor" then
        if rel.relationship_score > 60 then
          [npc.name ++ " mantiene su fachada pero internamente planea cómo usar esta confianza"]
        else
          [npc.name ++ " comienza a ver a los jugadores como una amenaza a sus planes"]
      else if npc.true_role = some "secret_ally" then
        if rel.trust_level > 50 then
          [npc.name ++ " considera revelar su verdadera lealtad"]
        else []
      else []
    else []
  notes ++
    (if emotionalState = "suspicious" then ["Hace preguntas indirectas para saber más"]
     else if emotionalState = "hostile" then ["Busca excusas para terminar la conversación"]
     else if emotionalState = "grateful" then ["Ofrece información o ayuda voluntariamente"]
     else [])

/-- `base_tones` table in `_get_dialogue_tone`. -/
def baseTones : List (String × String) :=
  [ ("neutral", "formal"), ("friendly", "cálido"), ("suspicious", "cauteloso"),
    ("hostile", "cortante"), ("grateful", "efusivo"), ("fearful", "tembloroso"),
    ("nervous", "vacilante"), ("calculating", "medido"), ("angry", "agresivo"),
    ("sad", "melancólico") ]

/-- `NPCBrain._get_dialogue_tone`. -/
def getDialogueTone (emotionalState : String) (p : NPCPersonality) : String :=
  let baseTone := (alistGet baseTones emotionalState).getD "neutral"
  if p.pride > 80 ∧ baseTone = "friendly" then "cordial pero distante"
  else if p.pride > 80 ∧ baseTone = "fearful" then "tenso pero digno"
  else if p.cunning > 80 ∧ baseTone = "hostile" then "amenazante pero sutil"
  else baseTone

/-- `NPCBrain.calculate_reaction` (the `player_action` text is threaded but
unused by the computation, as in the source; `action_details` is only ever
passed to helpers that ignore it and is omitted). -/
def calculateReaction (npc : NPCState) (rel : NPCRelationship)
    (playerAction actionType : String) : NPCReaction :=
  let base := getBaseReaction actionType
  let mods := applyPersonalityModifiers npc.personality actionType
  let finalRelationChange := intTrunc ((base.1 : ℚ) * (1 + mods.1))
  let finalTrustChange := intTrunc ((base.2 : ℚ) * (1 + mods.2))
  let newEmotionalState :=
    calculateEmotionalTransition rel.emotional_state actionType finalRelationChange
  { npc_code := npc.code
    npc_name := npc.name
    emotional_response := newEmotionalState
    relationship_change := finalRelationChange
    trust_change := finalTrustChange
    dialogue_tone := getDialogueTone newEmotionalState npc.personality
    dialogue_hints := generateDialogueHints npc rel actionType newEmotionalState
    reveals_secret := checkSecretReveal npc rel actionType finalRelationChange
    triggers_betrayal := checkBetrayalTrigger npc rel finalRelationChange
    triggers_redemption := checkRedemptionTrigger npc rel finalRelationChange
    behavior_notes := generateBehaviorNotes npc rel newEmotionalState }

/-- Caller-side persistence of a reaction into the relationship snapshot
(per spec §3/§5: the caller owns the snapshot, applies the deltas clamped to
[0,100] and records the one-shot trigger flags). Only the two flags matter
for the properties proved below. -/
def persistReaction (rel : NPCRelationship) (r : NPCReaction) : NPCRelationship :=
  { rel with
    relationship_score := clamp100 (rel.relationship_score + r.relationship_change)
    trust_level := clamp100 (rel.trust_level + r.trust_change)
    emotional_state := r.emotional_response
    interactions_count := rel.interactions_count + 1
    betrayal_triggered := rel.betrayal_triggered || r.triggers_betrayal
    redemption_triggered := rel.redemption_triggered || r.triggers_redemption }

/-- A sequence of `calculate_reaction` calls in which the caller persists
each reaction before the next call. Each action is a
(player text, action type) pair. -/
def runReactions (npc : NPCState) (rel : NPCRelationship) :
    List (String × String) → List NPCReaction
  | [] => []
  | a :: rest =>
    let r := calculateReaction npc rel a.1 a.2
    r :: runReactions npc (persistReaction rel r) rest

lemma checkBetrayalTrigger_flagged (npc : NPCState) (rel : NPCRelationship)
    (c : Int) (h : rel.betrayal_triggered = true) :
    checkBetrayalTrigger npc rel c = false := by
  simp [checkBetrayalTrigger, h]

lemma checkRedemptionTrigger_flagged (npc : NPCState) (rel : NPCRelationship)
    (c : Int) (h : rel.redemption_triggered = true) :
    checkRedemptionTrigger npc rel c = false := by
  simp [checkRedemptionTrigger, h]

lemma checkBetrayalTrigger_lt {npc : NPCState} {rel : NPCRelationship} {c : Int}
    (h : checkBetrayalTrigger npc rel c = true) :
    rel.relationship_score + c < effBetrayalThreshold npc := by
  unfold checkBetrayalTrigger at h
  split_ifs at h <;> simp_all

lemma checkRedemptionTrigger_ge {npc : NPCState} {rel : NPCRelationship} {c : Int}
    (h : checkRedemptionTrigger npc rel c = true) :
    rel.relationship_score + c ≥ effRedemptionThreshold npc := by
  unfold checkRedemptionTrigger at h
  split_ifs at h <;> simp_all

lemma calculateReaction_betrayal_flagged (npc : NPCState) (rel : NPCRelationship)
    (pa at2 : String) (h : rel.betrayal_triggered = true) :
    (calculateReaction npc rel pa at2).triggers_betrayal = false :=
  checkBetrayalTrigger_flagged npc rel _ h

lemma calculateReaction_redemption_flagged (npc : NPCState) (rel : NPCRelationship)
    (pa at2 : String) (h : rel.redemption_triggered = true) :
    (calculateReaction npc rel pa at2).triggers_redemption = false :=
  checkRedemptionTrigger_flagged npc rel _ h

lemma runReactions_betrayal_zero (npc : NPCState) (acts : List (String × String)) :
    ∀ rel : NPCRelationship, rel.betrayal_triggered = true →
      ((runReactions npc rel acts).countP (fun r => r.triggers_betrayal)) = 0 := by
  induction acts with
  | nil => intro rel _; rfl
  | cons a rest ih =>
    intro rel h
    rw [runReactions, List.countP_cons]
    rw [calculateReaction_betrayal_flagged npc rel a.1 a.2 h]
    have hp : (persistReaction rel (calculateReaction npc rel a.1 a.2)).betrayal_triggered = true := by
      simp [persistReaction, h]
    simp [ih _ hp]

lemma runReactions_redemption_zero (npc : NPCState) (acts : List (String × String)) :
    ∀ rel : NPCRelationship, rel.redemption_triggered = true →
      ((runReactions npc rel acts).countP (fun r => r.triggers_redemption)) = 0 := by
  induction acts with
  | nil => intro rel _; rfl
  | cons a rest ih =>
    intro rel h
    rw [runReactions, List.countP_cons]
    rw [calculateReaction_redemption_flagged npc rel a.1 a.2 h]
    have hp : (persistReaction rel (calculateReaction npc rel a.1 a.2)).redemption_triggered = true := by
      simp [persistReaction, h]
    simp [ih _ hp]

lemma runReactions_betrayal_le_one (npc : NPCState) (acts : List (String × String)) :
    ∀ rel : NPCRelationship,
      ((runReactions npc rel acts).countP (fun r => r.triggers_betrayal)) ≤ 1 := by
  induction acts with
  | nil => intro rel; simp [runReactions]
  | cons a rest ih =>
    intro rel
    rw [runReactions, List.countP_cons]
    cases hb : (calculateReaction npc rel a.1 a.2).triggers_betrayal with
    | false => simpa [hb] using ih (persistReaction rel (calculateReaction npc rel a.1 a.2))
    | true =>
      have hp : (persistReaction rel (calculateReaction npc rel a.1 a.2)).betrayal_triggered = true := by
        simp [persistReaction, hb]
      simp [hb, runReactions_betrayal_zero npc rest _ hp]

lemma runReactions_redemption_le_one (npc : NPCState) (acts : List (String × String)) :
    ∀ rel : NPCRelationship,
      ((runReactions npc rel acts).countP (fun r => r.triggers_redemption)) ≤ 1 := by
  induction acts with
  | nil => intro rel; simp [runReactions]
  | cons a rest ih =>
    intro rel
    rw [runReactions, List.countP_cons]
    cases hb : (calculateReaction npc rel a.1 a.2).triggers_redemption with
    | false => simpa [hb] using ih (persistReaction rel (calculateReaction npc rel a.1 a.2))
    | true =>
      have hp : (persistReaction rel (calculateReaction npc rel a.1 a.2)).redemption_triggered = true := by
        simp [persistReaction, hb]
      simp [hb, runReactions_redemption_zero npc rest _ hp]

/-- Fixture refuting C3 as stated: a secret traitor whose configured
betrayal threshold (90) exceeds its configured redemption threshold (20). -/
def npcBothTriggers : NPCState :=
  { npc_id := 1, code := "x", name := "X", apparent_role := "merchant",
    true_role := some "traitor", betrayal_threshold := some 90,
    redemption_threshold := some 20 }

/-- Fixture: fresh mid-range relationship, no trigger flag set. -/
def relMid : NPCRelationship :=
  { room_id := 1, npc_id := 1, npc_code := "x", npc_name := "X" }

/-- **C3 counterexample.** With betrayal threshold 90 and redemption
threshold 20, a neutral action (relationship delta 0, score 50) makes
`calculate_reaction` report `triggers_betrayal` and `triggers_redemption`
both true — the claimed mutual exclusion fails on the code as stated. -/
theorem claim_C3_counterexample :
    (calculateReaction npcBothTriggers relMid "" "neutral").triggers_betrayal = true ∧
    (calculateReaction npcBothTriggers relMid "" "neutral").triggers_redemption = true := by
  have hbase : getBaseReaction "neutral" = (0, 0) := rfl
  have hmods : applyPersonalityModifiers npcBothTriggers.personality "neutral" = (0, 0) := rfl
  have hfrc : intTrunc (((getBaseReaction "neutral").1 : ℚ) *
      (1 + (applyPersonalityModifiers npcBothTriggers.personality "neutral").1)) = 0 := by
    rw [hbase, hmods]
    norm_num [intTrunc]
  constructor
  · show checkBetrayalTrigger npcBothTriggers relMid (intTrunc (((getBaseReaction "neutral").1 : ℚ) *
      (1 + (applyPersonalityModifiers npcBothTriggers.personality "neutral").1))) = true
    rw [hfrc]
    decide
  · show checkRedemptionTrigger npcBothTriggers relMid (intTrunc (((getBaseReaction "neutral").1 : ℚ) *
      (1 + (applyPersonalityModifiers npcBothTriggers.personality "neutral").1))) = true
    rw [hfrc]
    decide

/-- **C3 (amended).** Provided the NPC's effective betrayal threshold does
not exceed its effective redemption threshold (true for the defaults 30/80),
no single reaction has both triggers; and, for any sequence of reactions in
which the caller persists the trigger flags, each trigger fires at most once
per relationship, and not at all once its flag is already set (until an
external reset). -/
theorem claim_C3 (npc : NPCState) (rel : NPCRelationship)
    (pa actionType : String) (acts : List (String × String))
    (h : effBetrayalThreshold npc ≤ effRedemptionThreshold npc) :
    (¬((calculateReaction npc rel pa actionType).triggers_betrayal = true ∧
       (calculateReaction npc rel pa actionType).triggers_redemption = true)) ∧
    ((runReactions npc rel acts).countP (fun r => r.triggers_betrayal) ≤ 1) ∧
    ((runReactions npc rel acts).countP (fun r => r.triggers_redemption) ≤ 1) ∧
    (rel.betrayal_triggered = true →
      (runReactions npc rel acts).countP (fun r => r.triggers_betrayal) = 0) ∧
    (rel.redemption_triggered = true →
      (runReactions npc rel acts).countP (fun r => r.triggers_redemption) = 0) := by
  refine ⟨?_, runReactions_betrayal_le_one npc acts rel,
    runReactions_redemption_le_one npc acts rel,
    runReactions_betrayal_zero npc acts rel,
    runReactions_redemption_zero npc acts rel⟩
  rintro ⟨hb, hr⟩
  have h1 := checkBetrayalTrigger_lt hb
  have h2 := checkRedemptionTrigger_ge hr
  omega

/-- Fixture: secret traitor with default (unset) thresholds — the C7
scenario NPC. -/
def npcScenario : NPCState :=
  { npc_id := 2, code := "varen", name := "Varen", apparent_role := "merchant",
    true_role := some "traitor" }

/-- Fixture: relationship score 85, trust 75 — the C7 scenario snapshot. -/
def relScenario : NPCRelationship :=
  { room_id := 1, npc_id := 2, npc_code := "varen", npc_name := "Varen",
    relationship_score := 85, trust_level := 75 }

/-- Witness for C3: the amended statement applied to the default-threshold
scenario NPC over a concrete two-action sequence. -/
theorem claim_C3_witness :
    (¬((calculateReaction npcScenario relScenario "" "attacked").triggers_betrayal = true ∧
       (calculateReaction npcScenario relScenario "" "attacked").triggers_redemption = true)) ∧
    ((runReactions npcScenario relScenario [("", "attacked"), ("", "attacked")]).countP
        (fun r => r.triggers_betrayal) ≤ 1) ∧
    ((runReactions npcScenario relScenario [("", "attacked"), ("", "attacked")]).countP
        (fun r => r.triggers_redemption) ≤ 1) ∧
    (relScenario.betrayal_triggered = true →
      (runReactions npcScenario relScenario [("", "attacked"), ("", "attacked")]).countP
        (fun r => r.triggers_betrayal) = 0) ∧
    (relScenario.redemption_triggered = true →
      (runReactions npcScenario relScenario [("", "attacked"), ("", "attacked")]).countP
        (fun r => r.triggers_redemption) = 0) :=
  claim_C3 npcScenario relScenario "" "attacked" [("", "attacked"), ("", "attacked")]
    (by decide)

/-- The betrayal threshold as the spec's words describe it: the configured
threshold when one is present, the default 30 only when none is configured
(no falsy-zero fallback). Used to compare the claim against the code. -/
def specBetrayalThreshold (npc : NPCState) : Int :=
  npc.betrayal_threshold.getD betrayalThresholdDefault

/-- Fixture refuting C7 as stated: a secret traitor whose configured
betrayal threshold is 0 (falsy in Python). -/
def npcZeroThreshold : NPCState :=
  { npc_id := 3, code := "z", name := "Z", apparent_role := "merchant",
    true_role := some "traitor", betrayal_threshold := some 0 }

/-- Fixture: relationship score 10, no flags set. -/
def relLow : NPCRelationship :=
  { room_id := 1, npc_id := 3, npc_code := "z", npc_name := "Z",
    relationship_score := 10 }

/-- **C7 counterexample.** With a configured betrayal threshold of 0 the
code falls back to the default 30 (Python `or` treats 0 as unset), so the
trigger fires at projected relationship 10 even though the claim — which
reads the configured threshold 0 — says it must not (10 ≥ 0). -/
theorem claim_C7_counterexample :
    checkBetrayalTrigger npcZeroThreshold relLow 0 = true ∧
    specBetrayalThreshold npcZeroThreshold = 0 ∧
    ¬(relLow.relationship_score + 0 < specBetrayalThreshold npcZeroThreshold) := by
  refine ⟨rfl, rfl, by decide⟩

/-- **C7 (amended).** The betrayal trigger fires iff the relationship's
betrayal flag is unset, the NPC has a non-empty true role differing from its
apparent role, and the projected relationship falls below the effective
threshold — the configured threshold when it is nonzero, the default 30 when
unset *or configured as 0*; and the concrete scenario (score 85, traitor
behind merchant, no configured threshold, delta −60) triggers betrayal. -/
theorem claim_C7 (npc : NPCState) (rel : NPCRelationship) (c : Int) :
    (checkBetrayalTrigger npc rel c = true ↔
      (rel.betrayal_triggered = false ∧
       (∃ tr, npc.true_role = some tr ∧ tr ≠ "" ∧ tr ≠ npc.apparent_role) ∧
       rel.relationship_score + c < effBetrayalThreshold npc)) ∧
    checkBetrayalTrigger npcScenario relScenario (-60) = true ∧
    effBetrayalThreshold npcScenario = 30 := by
  refine ⟨?_, rfl, rfl⟩
  unfold checkBetrayalTrigger
  cases hb : rel.betrayal_triggered with
  | true => simp [hb]
  | false =>
    cases htr : npc.true_role with
    | none => simp [pyTruthyStrOpt, htr]
    | some tr =>
      by_cases hroles : tr = "" ∨ tr = npc.apparent_role
      · rw [if_neg (by simp [hb]), if_pos (by simp [pyTruthyStrOpt, htr]; tauto)]
        simp [htr]
        tauto
      · rw [if_neg (by simp [hb]), if_neg (by simp [pyTruthyStrOpt, htr]; tauto)]
        simp [htr]
        tauto

/-- Witness for C7: the concrete scenario — relationship 85, hidden traitor
behind a merchant facade, unset threshold, delta −60 — triggers betrayal
with the effective default threshold 30. -/
theorem claim_C7_witness :
    checkBetrayalTrigger npcScenario relScenario (-60) = true ∧
    effBetrayalThreshold npcScenario = 30 :=
  (claim_C7 npcScenario relScenario 0).2

/-! ## Twist engine (`services/twist_engine.py`)

Python `Any`-typed story-flag values are modelled by `PyVal`. -/

/-- A Python value as it occurs in `story_flags` dicts. -/
inductive PyVal where
  | none
  | bool (b : Bool)
  | str (s : String)
  | int (n : Int)
deriving Repr, DecidableEq

/-- Python truthiness of a `PyVal`. -/
def PyVal.truthy : PyVal → Bool
  | .none => false
  | .bool b => b
  | .str s => s != ""
  | .int n => n != 0

/-- Python `str(v)` for the modelled values. -/
def PyVal.toStr : PyVal → String
  | .none => "None"
  | .bool b => if b then "True" else "False"
  | .str s => s
  | .int n => toString n

/-- `story_flags.get(name)` (missing key gives `None`). -/
def flagsGet (m : List (String × PyVal)) (k : String) : PyVal :=
  (alistGet m k).getD .none

/-- A foreshadowing element (`Dict[str, Any]` in the source); `none` models
an absent key. -/
structure FElement where
  scene_type : Option String := none
  elem_id : Option String := none
  subtle_hint : Option String := none
  npc : Option String := none
deriving Repr, DecidableEq

/-- `twist_engine.Twist`. -/
structure Twist where
  twist_id : String
  title : String := ""
  description : String := ""
  revelation_text : String := ""
  required_clues : List String := []
  min_clues_for_reveal : Int := 2
  required_flags : List String := []
  required_act : Int := 1
  foreshadowing_elements : List FElement := []
  related_npcs : List String := []
  related_decisions : List String := []
  priority : Int := 5
  affects_ending : Bool := false
deriving Repr, DecidableEq

/-- `twist_engine.RedHerring`. -/
structure RedHerring where
  herring_id : String
  description : String := ""
  false_conclusion : String := ""
  real_truth : String := ""
  deploy_after_clue : Option String := none
  deploy_in_act : Option Int := none
  revelation_trigger : Option String := none
deriving Repr, DecidableEq

/-- The mutable per-campaign registry held by a `TwistEngine` instance. -/
structure TwistEngineState where
  twists : List Twist := []
  red_herrings : List RedHerring := []
  revealed_twists : List String := []
  deployed_herrings : List String := []
  foreshadowed : List (String × Int) := []
deriving Repr, DecidableEq

/-- The story-state snapshot fields read by the twist engine. -/
structure StoryState where
  current_act : Int := 1
  revealed_clues : List String := []
  story_flags : List (String × PyVal) := []
  tension_level : String := "normal"
deriving Repr, DecidableEq

/-- `len(set(required_clues) & revealed_clues)`. -/
def countCluesFound (requiredClues revealedClues : List String) : Int :=
  ((requiredClues.dedup).filter (fun c => revealedClues.contains c)).length

/-- `tension_bonuses` table in `_calculate_readiness`. -/
def tensionBonuses : List (String × ℚ) :=
  [("low", 0), ("normal", 1/20), ("high", 3/20), ("critical", 2/10)]

/-- `TwistEngine._calculate_readiness`. -/
def calculateReadiness (s : TwistEngineState) (twist : Twist)
    (cluesFound : Int) (st : StoryState) : ℚ :=
  let clueScore : ℚ :=
    if twist.required_clues ≠ [] then
      ((cluesFound : ℚ) / (twist.required_clues.length : ℚ)) * (4/10)
    else 3/10
  let foreshadowCount := (alistGet s.foreshadowed twist.twist_id).getD 0
  let foreshadowScore := min ((foreshadowCount : ℚ) / 3) 1 * (2/10)
  let tensionScore := (alistGet tensionBonuses st.tension_level).getD (1/20)
  let actScore : ℚ :=
    if st.current_act > twist.required_act then
      min (((st.current_act - twist.required_act : Int) : ℚ) * (1/10)) (2/10)
    else 0
  clueScore + foreshadowScore + tensionScore + actScore

/-- The per-twist body of the `check_revelation_timing` loop: `none` when the
twist is skipped (already revealed / act too early / missing flag / missing
clues / readiness below 0.7), otherwise the (twist, readiness) candidate. -/
def candidateFor (s : TwistEngineState) (st : StoryState) (twist : Twist) :
    Option (Twist × ℚ) :=
  if s.revealed_twists.contains twist.twist_id then Option.none
  else if st.current_act < twist.required_act then Option.none
  else if twist.required_flags ≠ [] ∧
      ¬ twist.required_flags.all (fun f => (flagsGet st.story_flags f).truthy) then
    Option.none
  else
    let cluesFound := countCluesFound twist.required_clues st.revealed_clues
    if cluesFound < twist.min_clues_for_reveal then Option.none
    else
      let readiness := calculateReadiness s twist cluesFound st
      if readiness ≥ 7/10 then some (twist, readiness) else Option.none

/-- `candidates.sort(key=..., reverse=True); return candidates[0]`: Python's
sort is stable, so this is the first candidate of maximal readiness. -/
def pickBestCandidate (l : List (Twist × ℚ)) : Option (Twist × ℚ) :=
  l.foldl
    (fun best c =>
      match best with
      | Option.none => some c
      | some b => if c.2 > b.2 then some c else some b)
    Option.none

/-- `TwistEngine.check_revelation_timing`. -/
def checkRevelationTiming (s : TwistEngineState) (st : StoryState) :
    Option Twist :=
  (pickBestCandidate (s.twists.filterMap (candidateFor s st))).map (fun c => c.1)

/-- A generated foreshadowing hint (dict with keys `twist_id`, `hint`,
`priority`, `npc`, `type`). -/
structure FHint where
  twist_id : String
  hint : String
  priority : Int
  npc : Option String
  hintType : String
deriving Repr, DecidableEq

/-- Stable descending insertion preserving original order among equal
priorities (Python `list.sort(reverse=True)` is stable). -/
def insertDesc (x : FHint) : List FHint → List FHint
  | [] => [x]
  | y :: ys => if x.priority > y.priority then x :: y :: ys else y :: insertDesc x ys

/-- Stable sort by priority descending. -/
def sortDescByPriority (l : List FHint) : List FHint :=
  l.foldl (fun acc x => insertDesc x acc) []

/-- `TwistEngine.generate_foreshadowing`. Note the used-element check looks
up the composite key `"{twist_id}_{element_id}"` in `self.foreshadowed`. -/
def generateForeshadowing (s : TwistEngineState) (st : StoryState)
    (sceneType : String) : List FHint :=
  let hints := s.twists.flatMap (fun twist =>
    if s.revealed_twists.contains twist.twist_id then []
    else if twist.required_act > st.current_act + 2 then []
    else twist.foreshadowing_elements.filterMap (fun element =>
      if element.scene_type = some sceneType ∨ ¬ pyTruthyStrOpt element.scene_type then
        let elementId := twist.twist_id ++ "_" ++ (element.elem_id.getD "default")
        if (alistGet s.foreshadowed elementId).isSome then Option.none
        else
          let cluesFound := countCluesFound twist.required_clues st.revealed_clues
          let totalClues : Int :=
            if twist.required_clues.length ≠ 0 then (twist.required_clues.length : Int) else 1
          let progress : ℚ := (cluesFound : ℚ) / (totalClues : ℚ)
          some { twist_id := twist.twist_id
                 hint := element.subtle_hint.getD ""
                 priority := intTrunc ((twist.priority : ℚ) * (1/2 + progress * (1/2)))
                 npc := element.npc
                 hintType := "foreshadow" }
      else Option.none))
  (sortDescByPriority hints).take 3

/-- Python truthiness of an optional integer (`None` and `0` are falsy). -/
def pyTruthyIntOpt : Option Int → Bool
  | Option.none => false
  | some n => n != 0

/-- `TwistEngine.check_red_herring_deployment`. -/
def checkRedHerringDeployment (s : TwistEngineState) (st : StoryState) :
    List RedHerring :=
  s.red_herrings.filterMap (fun h =>
    if s.deployed_herrings.contains h.herring_id then Option.none
    else if pyTruthyStrOpt h.deploy_after_clue ∧
        st.revealed_clues.contains (h.deploy_after_clue.getD "") then some h
    else if pyTruthyIntOpt h.deploy_in_act ∧
        st.current_act ≥ (h.deploy_in_act.getD 0) then some h
    else Option.none)

/-- Add to a Python set modelled as a duplicate-free list. -/
def addToSet (l : List String) (x : String) : List String :=
  if l.contains x then l else l ++ [x]

/-- Replace-or-append into the `twists` dict (keyed by `twist_id`). -/
def setTwist (l : List Twist) (t : Twist) : List Twist :=
  if l.any (fun u => u.twist_id == t.twist_id) then
    l.map (fun u => if u.twist_id == t.twist_id then t else u)
  else l ++ [t]

/-- Replace-or-append into the `red_herrings` dict (keyed by `herring_id`). -/
def setHerring (l : List RedHerring) (h : RedHerring) : List RedHerring :=
  if l.any (fun u => u.herring_id == h.herring_id) then
    l.map (fun u => if u.herring_id == h.herring_id then h else u)
  else l ++ [h]

/-- The state-mutating operations of `TwistEngine` (`check_*` and
`generate_*` do not mutate). -/
inductive TwistOp where
  | registerTwist (t : Twist)
  | registerRedHerring (h : RedHerring)
  | markRevealed (twistId : String)
  | markHerringDeployed (herringId : String)
  | recordForeshadowing (twistId : String)

/-- One mutating call on the engine registry. -/
def stepTwist (s : TwistEngineState) : TwistOp → TwistEngineState
  | .registerTwist t => { s with twists := setTwist s.twists t }
  | .registerRedHerring h => { s with red_herrings := setHerring s.red_herrings h }
  | .markRevealed tid => { s with revealed_twists := addToSet s.revealed_twists tid }
  | .markHerringDeployed hid =>
    { s with deployed_herrings := addToSet s.deployed_herrings hid }
  | .recordForeshadowing tid =>
    { s with foreshadowed :=
        setKV s.foreshadowed tid ((alistGet s.foreshadowed tid).getD 0 + 1) }

/-- Run a sequence of mutating calls. -/
def runTwistOps (s : TwistEngineState) : List TwistOp → TwistEngineState
  | [] => s
  | op :: rest => runTwistOps (stepTwist s op) rest

lemma contains_mem {l : List String} {a : String} : l.contains a = true ↔ a ∈ l := by
  simp

lemma mem_addToSet_self (l : List String) (x : String) : x ∈ addToSet l x := by
  unfold addToSet
  split
  · next h => exact contains_mem.mp h
  · exact List.mem_append_right _ (List.mem_singleton.mpr rfl)

lemma mem_revealed_stepTwist {tid : String} {s : TwistEngineState} (op : TwistOp)
    (h : tid ∈ s.revealed_twists) : tid ∈ (stepTwist s op).revealed_twists := by
  cases op with
  | markRevealed tid2 =>
    simp only [stepTwist, addToSet]
    split
    · exact h
    · exact List.mem_append_left _ h
  | registerTwist t => exact h
  | registerRedHerring h2 => exact h
  | markHerringDeployed hid => exact h
  | recordForeshadowing tid2 => exact h

lemma mem_deployed_stepTwist {hid : String} {s : TwistEngineState} (op : TwistOp)
    (h : hid ∈ s.deployed_herrings) : hid ∈ (stepTwist s op).deployed_herrings := by
  cases op with
  | markHerringDeployed hid2 =>
    simp only [stepTwist, addToSet]
    split
    · exact h
    · exact List.mem_append_left _ h
  | registerTwist t => exact h
  | registerRedHerring h2 => exact h
  | markRevealed tid => exact h
  | recordForeshadowing tid => exact h

lemma mem_revealed_runTwistOps {tid : String} (ops : List TwistOp) :
    ∀ s : TwistEngineState, tid ∈ s.revealed_twists →
      tid ∈ (runTwistOps s ops).revealed_twists := by
  induction ops with
  | nil => intro s h; exact h
  | cons op rest ih => intro s h; exact ih _ (mem_revealed_stepTwist op h)

lemma mem_deployed_runTwistOps {hid : String} (ops : List TwistOp) :
    ∀ s : TwistEngineState, hid ∈ s.deployed_herrings →
      hid ∈ (runTwistOps s ops).deployed_herrings := by
  induction ops with
  | nil => intro s h; exact h
  | cons op rest ih => intro s h; exact ih _ (mem_deployed_stepTwist op h)

lemma pickBestCandidate_aux (l : List (Twist × ℚ)) :
    ∀ (acc : Option (Twist × ℚ)) (c : Twist × ℚ),
      l.foldl
        (fun best c2 =>
          match best with
          | Option.none => some c2
          | some b => if c2.2 > b.2 then some c2 else some b) acc = some c →
      acc = some c ∨ c ∈ l := by
  induction l with
  | nil => intro acc c h; exact Or.inl h
  | cons x xs ih =>
    intro acc c h
    rw [List.foldl_cons] at h
    rcases ih _ c h with h2 | h2
    · cases acc with
      | none =>
        simp only [Option.some.injEq] at h2
        cases h2
        exact Or.inr (List.mem_cons_self x xs)
      | some b =>
        dsimp only at h2
        split at h2
        · simp only [Option.some.injEq] at h2
          cases h2
          exact Or.inr (List.mem_cons_self x xs)
        · exact Or.inl h2
    · exact Or.inr (List.mem_cons_of_mem _ h2)

lemma pickBestCandidate_mem {l : List (Twist × ℚ)} {c : Twist × ℚ}
    (h : pickBestCandidate l = some c) : c ∈ l := by
  rcases pickBestCandidate_aux l Option.none c h with h2 | h2
  · exact absurd h2 (by simp)
  · exact h2

lemma candidateFor_some {s : TwistEngineState} {st : StoryState} {twist : Twist}
    {c : Twist × ℚ} (h : candidateFor s st twist = some c) :
    c.1 = twist ∧ s.revealed_twists.contains twist.twist_id = false := by
  unfold candidateFor at h
  split_ifs at h with h1 h2 h3
  dsimp only at h
  split_ifs at h with h4 h5
  simp only [Option.some.injEq] at h
  exact ⟨by rw [← h], Bool.eq_false_iff.mpr h1⟩

lemma checkRevelationTiming_not_revealed {s : TwistEngineState} {st : StoryState}
    {tw : Twist} (h : checkRevelationTiming s st = some tw) :
    tw.twist_id ∉ s.revealed_twists := by
  unfold checkRevelationTiming at h
  rcases Option.map_eq_some'.mp h with ⟨c, hc, hc1⟩
  obtain ⟨twist, hmem, hcand⟩ := List.mem_filterMap.mp (pickBestCandidate_mem hc)
  obtain ⟨h1, h2⟩ := candidateFor_some hcand
  rw [← hc1, h1]
  intro hmem2
  rw [contains_mem.mpr hmem2] at h2
  exact Bool.true_eq_false.mp h2

lemma checkRedHerringDeployment_not_deployed {s : TwistEngineState}
    {st : StoryState} {h : RedHerring}
    (hmem : h ∈ checkRedHerringDeployment s st) :
    h.herring_id ∉ s.deployed_herrings := by
  unfold checkRedHerringDeployment at hmem
  obtain ⟨h0, hmem0, hf⟩ := List.mem_filterMap.mp hmem
  intro hdep
  split_ifs at hf with h1 h2 h3 <;>
    first
      | exact Option.noConfusion hf
      | (simp only [Option.some.injEq] at hf
         subst hf
         exact h1 (contains_mem.mpr hdep))

/-- **C5.** `mark_revealed` / `mark_herring_deployed` add to the respective
one-shot registries; membership in those registries survives every further
engine operation; and `check_revelation_timing` /
`check_red_herring_deployment` never return an already-revealed twist or an
already-deployed red herring. -/
theorem claim_C5 (s : TwistEngineState) (ops : List TwistOp) (st : StoryState)
    (tid hid : String) :
    tid ∈ (stepTwist s (TwistOp.markRevealed tid)).revealed_twists ∧
    hid ∈ (stepTwist s (TwistOp.markHerringDeployed hid)).deployed_herrings ∧
    (tid ∈ s.revealed_twists →
      ∀ tw, checkRevelationTiming (runTwistOps s ops) st = some tw →
        tw.twist_id ≠ tid) ∧
    (hid ∈ s.deployed_herrings →
      ∀ h ∈ checkRedHerringDeployment (runTwistOps s ops) st,
        h.herring_id ≠ hid) := by
  refine ⟨mem_addToSet_self _ _, mem_addToSet_self _ _, ?_, ?_⟩
  · intro hmem tw htw heq
    exact checkRevelationTiming_not_revealed htw
      (heq ▸ mem_revealed_runTwistOps ops s hmem)
  · intro hmem h hh heq
    exact checkRedHerringDeployment_not_deployed hh
      (heq ▸ mem_deployed_runTwistOps ops s hmem)

/-- Fixture: an engine whose registry already has twist `t1` revealed and
herring `h1` deployed. -/
def engC5 : TwistEngineState :=
  { revealed_twists := ["t1"], deployed_herrings := ["h1"] }

/-- Witness for C5 at a concrete registry: the revealed twist `t1` and the
deployed herring `h1` are never reported again. -/
theorem claim_C5_witness :
    ("t1" ∈ (stepTwist engC5 (TwistOp.markRevealed "t1")).revealed_twists) ∧
    (Option.all (fun tw => tw.twist_id != "t1")
      (checkRevelationTiming (runTwistOps engC5 []) {}) = true) ∧
    ((checkRedHerringDeployment (runTwistOps engC5 []) {}).all
      (fun h => h.herring_id != "h1") = true) := by
  have h := claim_C5 engC5 [] {} "t1" "h1"
  refine ⟨h.1, ?_, ?_⟩
  · cases hc : checkRevelationTiming (runTwistOps engC5 []) {} with
    | none => rfl
    | some tw =>
      have hne := h.2.2.1 (by decide) tw hc
      simpa [Option.all] using bne_iff_ne.mpr hne
  · rw [List.all_eq_true]
    intro h2 hmem
    exact bne_iff_ne.mpr (h.2.2.2 (by decide) h2 hmem)

/-- Fixture: a twist with one scene-type-agnostic foreshadowing element. -/
def twistC6 : Twist := { twist_id := "t1", foreshadowing_elements := [{}] }

/-- Fixture: engine registry holding only `twistC6`, nothing recorded yet. -/
def engC6 : TwistEngineState := { twists := [twistC6] }

/-- The single hint `generate_foreshadowing` emits for `twistC6`
(`priority = int(5 * (0.5 + 0)) = 2`). -/
def hintC6 : FHint :=
  { twist_id := "t1", hint := "", priority := 2, npc := Option.none,
    hintType := "foreshadow" }

lemma mem_insertDesc {x z : FHint} :
    ∀ {l : List FHint}, z ∈ insertDesc x l → z = x ∨ z ∈ l := by
  intro l
  induction l with
  | nil =>
    intro h
    simp only [insertDesc, List.mem_singleton] at h
    exact Or.inl h
  | cons y ys ih =>
    intro h
    unfold insertDesc at h
    split at h
    · rcases List.mem_cons.mp h with h2 | h2
      · exact Or.inl h2
      · exact Or.inr h2
    · rcases List.mem_cons.mp h with h2 | h2
      · exact Or.inr (h2 ▸ List.mem_cons_self y ys)
      · rcases ih h2 with h3 | h3
        · exact Or.inl h3
        · exact Or.inr (List.mem_cons_of_mem _ h3)

lemma insertDesc_sorted {x : FHint} {l : List FHint}
    (h : l.Sorted fun a b => b.priority ≤ a.priority) :
    (insertDesc x l).Sorted (fun a b => b.priority ≤ a.priority) := by
  induction l with
  | nil => simp [insertDesc]
  | cons y ys ih =>
    rw [List.sorted_cons] at h
    unfold insertDesc
    split
    · next hgt =>
      rw [List.sorted_cons]
      refine ⟨?_, List.sorted_cons.mpr h⟩
      intro b hb
      rcases List.mem_cons.mp hb with h2 | h2
      · exact h2 ▸ le_of_lt hgt
      · exact le_trans (h.1 b h2) (le_of_lt hgt)
    · next hng =>
      rw [List.sorted_cons]
      refine ⟨?_, ih h.2⟩
      intro b hb
      rcases mem_insertDesc hb with h2 | h2
      · exact h2 ▸ le_of_not_lt hng
      · exact h.1 b h2

lemma sortDescByPriority_sorted (l : List FHint) :
    (sortDescByPriority l).Sorted (fun a b => b.priority ≤ a.priority) := by
  unfold sortDescByPriority
  have haux : ∀ (acc : List FHint),
      acc.Sorted (fun a b => b.priority ≤ a.priority) →
      (l.foldl (fun acc2 x => insertDesc x acc2) acc).Sorted
        (fun a b => b.priority ≤ a.priority) := by
    induction l with
    | nil => intro acc h; exact h
    | cons x xs ih =>
      intro acc h
      rw [List.foldl_cons]
      exact ih _ (insertDesc_sorted h)
  exact haux [] (by simp)

/-- **C6 (bug).** `generate_foreshadowing` checks element usage under the
composite key `"{twist_id}_{element_id}"`, but the documented recording call
`record_foreshadowing(twist_id)` stores under the bare `twist_id`; hence
after the caller records the emitted hint, the very same element is emitted
again — the claimed never-reemitted property fails on the code. The other
half of the claim does hold: every call returns at most 3 hints, sorted by
priority descending (last two conjuncts). -/
theorem claim_C6_reemitted :
    (generateForeshadowing engC6 {} "narrative" = [hintC6] ∧
     (stepTwist engC6 (TwistOp.recordForeshadowing "t1")).foreshadowed = [("t1", 1)] ∧
     generateForeshadowing (stepTwist engC6 (TwistOp.recordForeshadowing "t1")) {}
       "narrative" = [hintC6]) ∧
    (∀ (s : TwistEngineState) (st : StoryState) (sceneType : String),
      (generateForeshadowing s st sceneType).length ≤ 3) ∧
    (∀ (s : TwistEngineState) (st : StoryState) (sceneType : String),
      (generateForeshadowing s st sceneType).Sorted
        (fun a b => b.priority ≤ a.priority)) := by
  refine ⟨⟨?_, by decide, ?_⟩, ?_, ?_⟩
  · simp [generateForeshadowing, engC6, twistC6, stepTwist, setKV, alistGet,
      pyTruthyStrOpt, countCluesFound, sortDescByPriority, insertDesc, hintC6]
    norm_num [intTrunc]
    decide
  · simp [generateForeshadowing, engC6, twistC6, stepTwist, setKV, alistGet,
      pyTruthyStrOpt, countCluesFound, sortDescByPriority, insertDesc, hintC6]
    norm_num [intTrunc]
    decide
  · intro s st sceneType
    unfold generateForeshadowing
    exact List.length_take_le 3 _
  · intro s st sceneType
    unfold generateForeshadowing
    exact List.Pairwise.sublist (List.take_sublist _ _) (sortDescByPriority_sorted _)

/-! ## Story graph (`services/story_graph.py`)

The graph is a `networkx.DiGraph`. Modelling notes:
* `add_edge` implicitly adds its endpoints as nodes, so graph membership
  (`nodeMem`) covers declared nodes and edge endpoints.
* `nx.all_simple_paths` raises `NodeNotFound` when the source is not in the
  graph (the `except NetworkXNoPath` in `find_paths_to_endings` does not
  catch it); with `source == target` it yields the trivial path `[source]`.
  `_endings` only contains ids added through `add_node`, which always puts
  them in the graph, so the target is present whenever the source check
  passes (the theorems below carry this well-formedness where needed).
* Python floats are modelled over `ℚ`; `round(x, 1)` is modelled as exact
  round-half-to-even at one decimal. -/

/-- `story_graph.StoryNode` (the opaque `data` payload is omitted). -/
structure StoryNode where
  node_id : String
  node_type : String
  title : String := ""
  act : Int := 1
  chapter : Int := 1
  scene : Int := 1
deriving Repr, DecidableEq

/-- `story_graph.StoryEdge`. -/
structure StoryEdge where
  from_node : String
  to_node : String
  condition : Option String := none
  probability : ℚ := 1
  label : Option String := none
deriving Repr, DecidableEq

/-- `story_graph.StoryGraph` state: the `nx.DiGraph` plus the `_endings`
and `_decision_points` sets. -/
structure StoryGraph where
  nodes : List StoryNode := []
  edges : List StoryEdge := []
  endings : List String := []
  decision_points : List String := []
deriving Repr, DecidableEq

/-- `nx` node write: replace attributes if present, else append. -/
def setNodeL (l : List StoryNode) (n : StoryNode) : List StoryNode :=
  if l.any (fun m => m.node_id == n.node_id) then
    l.map (fun m => if m.node_id == n.node_id then n else m)
  else l ++ [n]

/-- `nx` edge write keyed by (from, to). -/
def setEdgeL (l : List StoryEdge) (e : StoryEdge) : List StoryEdge :=
  if l.any (fun d => d.from_node == e.from_node && d.to_node == e.to_node) then
    l.map (fun d => if d.from_node == e.from_node && d.to_node == e.to_node then e else d)
  else l ++ [e]

/-- `StoryGraph.add_node`. -/
def addNode (g : StoryGraph) (n : StoryNode) : StoryGraph :=
  { g with
    nodes := setNodeL g.nodes n
    endings :=
      if n.node_type = "ending" then addToSet g.endings n.node_id else g.endings
    decision_points :=
      if n.node_type = "decision" then addToSet g.decision_points n.node_id
      else g.decision_points }

/-- `StoryGraph.add_edge`. -/
def addEdge (g : StoryGraph) (e : StoryEdge) : StoryGraph :=
  { g with edges := setEdgeL g.edges e }

/-- `node_id in self.graph.nodes`: declared nodes or edge endpoints. -/
def nodeMem (g : StoryGraph) (v : String) : Bool :=
  g.nodes.any (fun n => n.node_id == v) ||
  g.edges.any (fun e => e.from_node == v || e.to_node == v)

/-- Successors of a node in edge-insertion (adjacency) order. -/
def successors (g : StoryGraph) (v : String) : List String :=
  (g.edges.filter (fun e => e.from_node == v)).map (fun e => e.to_node)

/-- Simple-path enumeration of `nx.all_simple_paths` (fuel-based DFS; the
fuel always exceeds the number of graph nodes, so it never runs out on a
simple path). When the current node is the target the only simple path is
the trivial one. -/
def simplePathsAux (g : StoryGraph) (target : String) :
    Nat → String → List String → List (List String)
  | 0, _, _ => []
  | fuel + 1, current, visited =>
    if current = target then [[current]]
    else
      let visited2 := visited ++ [current]
      ((successors g current).filter (fun w => ¬ visited2.contains w)).flatMap
        (fun w => (simplePathsAux g target fuel w visited2).map
          (fun p => current :: p))

/-- Fuel bound: strictly more than the number of distinct node ids. -/
def graphFuel (g : StoryGraph) : Nat := g.nodes.length + 2 * g.edges.length + 1

/-- `list(nx.all_simple_paths(graph, source, target))` for a target in the
graph. -/
def simplePaths (g : StoryGraph) (source target : String) : List (List String) :=
  simplePathsAux g target (graphFuel g) source []

/-- The dict built by the `find_paths_to_endings` loop: endings with a
nonempty path list, in registry order. -/
def pathsByEndingOf (g : StoryGraph) (fromNode : String) :
    List (String × List (List String)) :=
  g.endings.filterMap (fun e =>
    let ps := simplePaths g fromNode e
    if ps.isEmpty then Option.none else some (e, ps))

/-- `StoryGraph.find_paths_to_endings` — raises `NodeNotFound` (uncaught)
when there is at least one ending and the source is not in the graph. -/
def findPathsToEndings (g : StoryGraph) (fromNode : String) :
    Except String (List (String × List (List String))) :=
  if g.endings.isEmpty then .ok []
  else if ¬ nodeMem g fromNode then .error "NodeNotFound"
  else .ok (pathsByEndingOf g fromNode)

/-- Python `str.lower()` (ASCII model, per-character). -/
def pyLower (s : String) : String := String.mk (s.data.map Char.toLower)

/-- Split a character list at every occurrence of `c`
(Python `str.split(c)` for a one-character separator). -/
def splitCharAux (c : Char) : List Char → List Char → List (List Char)
  | [], acc => [acc.reverse]
  | x :: xs, acc =>
    if x = c then acc.reverse :: splitCharAux c xs []
    else splitCharAux c xs (x :: acc)

/-- Python `condition.split(":")`. -/
def pySplitColon (s : String) : List String :=
  (splitCharAux ':' s.data []).map String.mk

/-- `StoryGraph._check_condition`. -/
def checkCondition (condition : String) (decisionsMade : List (String × String))
    (storyFlags : List (String × PyVal)) : Bool :=
  match pySplitColon condition with
  | [flagName, expected] =>
    let actual := flagsGet storyFlags flagName
    if pyLower expected = "true" then actual.truthy
    else if pyLower expected = "false" then ! actual.truthy
    else actual.toStr == expected
  | [d, decisionCode, expectedOption] =>
    if d = "decision" then
      decide (alistGet decisionsMade decisionCode = some expectedOption)
    else true
  | _ => true

/-- `self.graph.edges.get((u, v), {})`. -/
def edgeLookup (g : StoryGraph) (u v : String) : Option StoryEdge :=
  g.edges.find? (fun e => e.from_node == u && e.to_node == v)

/-- `StoryGraph._calculate_path_weight`. -/
def pathWeight (g : StoryGraph) (path : List String)
    (decisionsMade : List (String × String))
    (storyFlags : List (String × PyVal)) : ℚ :=
  (path.zip path.tail).foldl
    (fun weight uv =>
      let edgeData := edgeLookup g uv.1 uv.2
      let condition := edgeData.bind (fun e => e.condition)
      let baseProb := (edgeData.map (fun e => e.probability)).getD 1
      let weight := weight * baseProb
      match condition with
      | some c =>
        if c ≠ "" ∧ ¬ checkCondition c decisionsMade storyFlags
          then weight * (1/10) else weight
      | Option.none => weight)
    1

/-- Python `max(path_weights) if path_weights else 0.0`. -/
def maxListD (l : List ℚ) (d : ℚ) : ℚ :=
  match l with
  | [] => d
  | x :: xs => xs.foldl max x

/-- Per-ending best path weight (the first loop of
`calculate_ending_probabilities`). -/
def endingWeights (g : StoryGraph)
    (pathsByEnding : List (String × List (List String)))
    (decisionsMade : List (String × String))
    (storyFlags : List (String × PyVal)) : List (String × ℚ) :=
  pathsByEnding.map (fun ep =>
    (ep.1, maxListD (ep.2.map (fun p => pathWeight g p decisionsMade storyFlags)) 0))

/-- Round half to even (CPython `round` tie-breaking). -/
def roundHalfEven (q : ℚ) : Int :=
  let f := ⌊q⌋
  let r := q - (f : ℚ)
  if r < 1/2 then f
  else if r > 1/2 then f + 1
  else if f % 2 = 0 then f else f + 1

/-- Python `round(x, 1)` over the exact rational model. -/
def round1 (q : ℚ) : ℚ := ((roundHalfEven (q * 10) : ℚ)) / 10

/-- `StoryGraph.calculate_ending_probabilities`. -/
def calculateEndingProbabilities (g : StoryGraph) (currentNode : String)
    (decisionsMade : List (String × String))
    (storyFlags : List (String × PyVal)) : Except String (List (String × ℚ)) :=
  match findPathsToEndings g currentNode with
  | .error e => .error e
  | .ok pathsByEnding =>
    if pathsByEnding.isEmpty then .ok []
    else
      let probabilities := endingWeights g pathsByEnding decisionsMade storyFlags
      let totalWeight := (probabilities.map (fun p => p.2)).sum
      if totalWeight > 0 then
        .ok (probabilities.map (fun p => (p.1, round1 (p.2 / totalWeight * 100))))
      else .ok probabilities

/-- **C10 counterexample.** On a graph with no ending nodes, a query from a
node that is not in the graph does *not* raise: the endings loop never runs,
so both functions return an empty result. -/
theorem claim_C10_counterexample :
    nodeMem {} "X" = false ∧
    findPathsToEndings {} "X" = .ok [] ∧
    calculateEndingProbabilities {} "X" [] [] = .ok [] :=
  ⟨rfl, rfl, rfl⟩

/-- **C10 (amended).** For a current node not in the graph: when the graph
has at least one ending node, `find_paths_to_endings` and
`calculate_ending_probabilities` raise `NodeNotFound`; when it has none,
both return an empty result instead. -/
theorem claim_C10 (g : StoryGraph) (current : String)
    (dm : List (String × String)) (fl : List (String × PyVal))
    (h : nodeMem g current = false) :
    (g.endings ≠ [] →
      findPathsToEndings g current = .error "NodeNotFound" ∧
      calculateEndingProbabilities g current dm fl = .error "NodeNotFound") ∧
    (g.endings = [] →
      findPathsToEndings g current = .ok [] ∧
      calculateEndingProbabilities g current dm fl = .ok []) := by
  constructor
  · intro hne
    have hfind : findPathsToEndings g current = .error "NodeNotFound" := by
      unfold findPathsToEndings
      rw [if_neg (by simpa [List.isEmpty_iff] using hne),
        if_pos (by simp [h])]
    refine ⟨hfind, ?_⟩
    unfold calculateEndingProbabilities
    rw [hfind]
  · intro he
    have hfind : findPathsToEndings g current = .ok [] := by
      unfold findPathsToEndings
      rw [if_pos (by simp [List.isEmpty_iff, he])]
    refine ⟨hfind, ?_⟩
    unfold calculateEndingProbabilities
    rw [hfind]
    rfl

/-- Fixture: a graph with one ending node `E` and nothing else. -/
def gOneEnding : StoryGraph := addNode {} { node_id := "E", node_type := "ending" }

/-- Witness for C10: on a graph that does have an ending, querying the
absent node `X` raises `NodeNotFound` in both functions. -/
theorem claim_C10_witness :
    findPathsToEndings gOneEnding "X" = .error "NodeNotFound" ∧
    calculateEndingProbabilities gOneEnding "X" [] [] = .error "NodeNotFound" :=
  (claim_C10 gOneEnding "X" [] [] (by decide)).1 (by decide)

/-- Fixture: the C9 scenario graph — A→B (probability 1, no condition),
A→C (probability 0.5, condition `flag_x:true`), only C an ending. -/
def gC9 : StoryGraph :=
  addEdge
    (addEdge
      (addNode
        (addNode (addNode {} { node_id := "A", node_type := "scene" })
          { node_id := "B", node_type := "scene" })
        { node_id := "C", node_type := "ending" })
      { from_node := "A", to_node := "B", probability := 1 })
    { from_node := "A", to_node := "C", condition := some "flag_x:true",
      probability := 1/2 }

/-- **C9.** With `flag_x` false, the A→C path weight is
`0.5 × 0.1 = 0.05`, and `calculate_ending_probabilities` from A normalizes
the single reachable ending C to 100.0. -/
theorem claim_C9 :
    pathWeight gC9 ["A", "C"] [] [("flag_x", PyVal.bool false)] = 1/20 ∧
    calculateEndingProbabilities gC9 "A" [] [("flag_x", PyVal.bool false)] =
      .ok [("C", 100)] := by
  have hcond : checkCondition "flag_x:true" [] [("flag_x", PyVal.bool false)] = false := by
    decide
  have hel : edgeLookup gC9 "A" "C" =
      some { from_node := "A", to_node := "C", condition := some "flag_x:true",
             probability := 1/2, label := Option.none } := by
    simp [edgeLookup, gC9, addEdge, addNode, setEdgeL, setNodeL, List.find?]
  have hw : pathWeight gC9 ["A", "C"] [] [("flag_x", PyVal.bool false)] = 1/20 := by
    simp [pathWeight, hel, hcond]
    norm_num
  refine ⟨hw, ?_⟩
  have hpbe : pathsByEndingOf gC9 "A" = [("C", [["A", "C"]])] := by decide
  have hfind : findPathsToEndings gC9 "A" = .ok [("C", [["A", "C"]])] := by
    unfold findPathsToEndings
    rw [if_neg (by decide), if_neg (by decide), hpbe]
  unfold calculateEndingProbabilities
  rw [hfind]
  simp [endingWeights, maxListD, hw]
  norm_num [round1, roundHalfEven]

lemma abs_roundHalfEven_sub (q : ℚ) : |(roundHalfEven q : ℚ) - q| ≤ 1/2 := by
  unfold roundHalfEven
  have h0 : (0 : ℚ) ≤ q - (⌊q⌋ : ℚ) := by
    have := Int.floor_le q
    linarith
  have h1 : q - (⌊q⌋ : ℚ) < 1 := by
    have := Int.lt_floor_add_one q
    linarith
  dsimp only
  split_ifs with ha hb hc <;>
    · rw [abs_le]
      push_cast
      constructor <;> linarith

lemma abs_round1_sub (q : ℚ) : |round1 q - q| ≤ 1/20 := by
  have h := abs_roundHalfEven_sub (q * 10)
  have heq : round1 q - q = ((roundHalfEven (q * 10) : ℚ) - q * 10) / 10 := by
    rw [round1]
    ring
  rw [heq, abs_div]
  rw [show |(10 : ℚ)| = 10 by norm_num]
  linarith

lemma sum_round1_err (xs : List ℚ) :
    |(xs.map round1).sum - xs.sum| ≤ (xs.length : ℚ) * (1/20) := by
  induction xs with
  | nil => simp
  | cons x l ih =>
    simp only [List.map_cons, List.sum_cons, List.length_cons]
    have h1 := abs_round1_sub x
    have h2 : |(round1 x + (l.map round1).sum) - (x + l.sum)| ≤
        |round1 x - x| + |(l.map round1).sum - l.sum| := by
      have := abs_add (round1 x - x) ((l.map round1).sum - l.sum)
      calc |(round1 x + (l.map round1).sum) - (x + l.sum)|
          = |(round1 x - x) + ((l.map round1).sum - l.sum)| := by ring_nf
        _ ≤ |round1 x - x| + |(l.map round1).sum - l.sum| := this
    push_cast
    calc |(round1 x + (l.map round1).sum) - (x + l.sum)|
        ≤ |round1 x - x| + |(l.map round1).sum - l.sum| := h2
      _ ≤ 1/20 + (l.length : ℚ) * (1/20) := by
          have := ih
          gcongr <;> assumption
      _ = ((l.length : ℚ) + 1) * (1/20) := by ring

lemma sum_map_snd_div_mul (l : List (String × ℚ)) (T c : ℚ) :
    (l.map (fun p => p.2 / T * c)).sum = (l.map (fun p => p.2)).sum / T * c := by
  induction l with
  | nil => simp
  | cons x xs ih =>
    simp only [List.map_cons, List.sum_cons, ih]
    ring

lemma foldl_max_ge (l : List ℚ) (x : ℚ) : x ≤ l.foldl max x := by
  induction l generalizing x with
  | nil => exact le_refl x
  | cons y ys ih => exact le_trans (le_max_left x y) (ih (max x y))

lemma maxListD_nonneg {l : List ℚ} (h : ∀ x ∈ l, 0 ≤ x) : 0 ≤ maxListD l 0 := by
  cases l with
  | nil => exact le_refl 0
  | cons x xs =>
    exact le_trans (h x (List.mem_cons_self _ _)) (foldl_max_ge xs x)

lemma pathWeight_nonneg {g : StoryGraph}
    (hprob : ∀ e ∈ g.edges, 0 ≤ e.probability) (path : List String)
    (dm : List (String × String)) (fl : List (String × PyVal)) :
    0 ≤ pathWeight g path dm fl := by
  unfold pathWeight
  generalize path.zip path.tail = l
  have step : ∀ (l2 : List (String × String)) (init : ℚ), 0 ≤ init →
      0 ≤ l2.foldl
        (fun weight uv =>
          let edgeData := edgeLookup g uv.1 uv.2
          let condition := edgeData.bind (fun e => e.condition)
          let baseProb := (edgeData.map (fun e => e.probability)).getD 1
          let weight := weight * baseProb
          match condition with
          | some c =>
            if c ≠ "" ∧ ¬ checkCondition c dm fl then weight * (1/10) else weight
          | Option.none => weight) init := by
    intro l2
    induction l2 with
    | nil => intro init h; exact h
    | cons uv rest ih =>
      intro init h
      rw [List.foldl_cons]
      apply ih
      have hbase : 0 ≤ ((edgeLookup g uv.1 uv.2).map
          (fun e => e.probability)).getD 1 := by
        cases hel : edgeLookup g uv.1 uv.2 with
        | none => norm_num
        | some e =>
          simp only [Option.map_some', Option.getD_some]
          exact hprob e (List.mem_of_find?_eq_some hel)
      have hw : 0 ≤ init * ((edgeLookup g uv.1 uv.2).map
          (fun e => e.probability)).getD 1 := mul_nonneg h hbase
      dsimp only
      cases hcond : (edgeLookup g uv.1 uv.2).bind (fun e => e.condition) with
      | none => exact hw
      | some c =>
        dsimp only
        split_ifs
        · exact mul_nonneg hw (by norm_num)
        · exact hw
  exact step l 1 (by norm_num)

lemma endingWeights_nonneg {g : StoryGraph}
    (hprob : ∀ e ∈ g.edges, 0 ≤ e.probability)
    (pbe : List (String × List (List String)))
    (dm : List (String × String)) (fl : List (String × PyVal)) :
    ∀ p ∈ endingWeights g pbe dm fl, 0 ≤ p.2 := by
  intro p hp
  obtain ⟨ep, _, rfl⟩ := List.mem_map.mp hp
  exact maxListD_nonneg (by
    intro x hx
    obtain ⟨pa, _, rfl⟩ := List.mem_map.mp hx
    exact pathWeight_nonneg hprob pa dm fl)

lemma all_zero_of_sum_zero {l : List ℚ} (h : ∀ x ∈ l, 0 ≤ x)
    (hs : l.sum = 0) : ∀ x ∈ l, x = 0 := by
  induction l with
  | nil => intro x hx; exact absurd hx (List.not_mem_nil x)
  | cons y ys ih =>
    rw [List.sum_cons] at hs
    have hy : 0 ≤ y := h y (List.mem_cons_self _ _)
    have hys : 0 ≤ ys.sum :=
      List.sum_nonneg (fun x hx => h x (List.mem_cons_of_mem _ hx))
    intro x hx
    rcases List.mem_cons.mp hx with rfl | hx2
    · linarith
    · exact ih (fun z hz => h z (List.mem_cons_of_mem _ hz)) (by linarith) x hx2

/-- **C1 (amended).** For a current node in the graph (with well-formed
endings — always true for graphs built through `add_node` — and nonnegative
edge probabilities): the result is an `ok` map that is empty exactly when no
ending is reachable; when the total ending weight is positive, its values
sum to 100 within ±0.05 per reachable ending (so ±0.1 holds only for at
most two endings — see the counterexample); when every reachable ending has
weight 0, the map is returned unnormalized, all values 0. -/
theorem claim_C1 (g : StoryGraph) (current : String)
    (dm : List (String × String)) (fl : List (String × PyVal))
    (hcur : nodeMem g current = true)
    (hprob : ∀ e ∈ g.edges, 0 ≤ e.probability) :
    ∃ l, calculateEndingProbabilities g current dm fl = .ok l ∧
      ((∀ e ∈ g.endings, simplePaths g current e = []) → l = []) ∧
      ((∃ e, e ∈ g.endings ∧ simplePaths g current e ≠ []) → l ≠ []) ∧
      (0 < ((endingWeights g (pathsByEndingOf g current) dm fl).map
          (fun p => p.2)).sum →
        |(l.map (fun p => p.2)).sum - 100| ≤ (l.length : ℚ) * (1/20)) ∧
      (((endingWeights g (pathsByEndingOf g current) dm fl).map
          (fun p => p.2)).sum = 0 →
        ∀ p ∈ l, p.2 = 0) := by
  have hfind : findPathsToEndings g current = .ok (pathsByEndingOf g current) := by
    unfold findPathsToEndings
    by_cases hemp : g.endings.isEmpty
    · rw [if_pos hemp]
      rw [pathsByEndingOf, List.isEmpty_iff.mp hemp]
      rfl
    · rw [if_neg hemp, if_neg (not_not_intro hcur)]
  have hreach_ne : (∃ e, e ∈ g.endings ∧ simplePaths g current e ≠ []) →
      pathsByEndingOf g current ≠ [] := by
    rintro ⟨e, he, hne⟩ hnil
    have : (e, simplePaths g current e) ∈ pathsByEndingOf g current := by
      apply List.mem_filterMap.mpr
      refine ⟨e, he, ?_⟩
      simp only [List.isEmpty_iff]
      rw [if_neg (by simpa using hne)]
    rw [hnil] at this
    exact List.not_mem_nil _ this
  have hunreach : (∀ e ∈ g.endings, simplePaths g current e = []) →
      pathsByEndingOf g current = [] := by
    intro h
    apply List.filterMap_eq_nil.mpr
    intro e he
    simp only [List.isEmpty_iff]
    rw [if_pos (by simpa using h e he)]
  unfold calculateEndingProbabilities
  rw [hfind]
  dsimp only
  by_cases hempty : (pathsByEndingOf g current).isEmpty
  · rw [if_pos hempty]
    refine ⟨[], rfl, fun _ => rfl, ?_, ?_, ?_⟩
    · intro hr
      exact absurd (List.isEmpty_iff.mp hempty) (hreach_ne hr)
    · intro hpos
      rw [List.isEmpty_iff.mp hempty] at hpos
      simp [endingWeights] at hpos
    · intro _ p hp
      exact absurd hp (List.not_mem_nil p)
  · rw [if_neg hempty]
    set probs := endingWeights g (pathsByEndingOf g current) dm fl with hprobs
    set T := (List.map (fun p => p.2) probs).sum with hT
    have hlen : probs.length = (pathsByEndingOf g current).length := by
      rw [hprobs, endingWeights]
      exact List.length_map _ _
    have hprobs_ne : probs ≠ [] := by
      intro hnil
      apply hempty
      rw [List.isEmpty_iff]
      have h2 := hlen
      rw [hnil] at h2
      exact List.length_eq_zero.mp h2.symm
    by_cases hTpos : T > 0
    · rw [if_pos hTpos]
      refine ⟨_, rfl, ?_, ?_, ?_, ?_⟩
      · intro h
        exact absurd (List.isEmpty_iff.mpr (hunreach h)) hempty
      · intro _
        simp only [ne_eq, List.map_eq_nil_iff]
        exact hprobs_ne
      · intro _
        have hmap : (probs.map (fun p => (p.1, round1 (p.2 / T * 100)))).map
            (fun p => p.2) =
            (probs.map (fun p => p.2 / T * 100)).map round1 := by
          rw [List.map_map, List.map_map]
          rfl
        have hsum : (probs.map (fun p => p.2 / T * 100)).sum = 100 := by
          rw [sum_map_snd_div_mul, ← hT, div_self (ne_of_gt hTpos), one_mul]
        have herr := sum_round1_err (probs.map (fun p => p.2 / T * 100))
        rw [hsum] at herr
        rw [hmap]
        simpa [List.length_map] using herr
      · intro hzero
        exact absurd hzero (ne_of_gt hTpos)
    · rw [if_neg hTpos]
      refine ⟨probs, rfl, ?_, ?_, ?_, ?_⟩
      · intro h
        exact absurd (List.isEmpty_iff.mpr (hunreach h)) hempty
      · intro _
        exact hprobs_ne
      · intro hpos
        exact absurd hpos hTpos
      · intro hzero
        intro p hp
        exact all_zero_of_sum_zero
          (by
            intro x hx
            obtain ⟨pp, hpp, rfl⟩ := List.mem_map.mp hx
            exact endingWeights_nonneg hprob _ dm fl pp hpp)
          hzero p.2 (List.mem_map.mpr ⟨p, hp, rfl⟩)

/-- Fixture refuting the C1 tolerance: one scene A with direct edges to five
endings, probabilities 0.1004 (×4) and 0.5984 (summing to 1). -/
def gC1x : StoryGraph :=
  addEdge
    (addEdge
      (addEdge
        (addEdge
          (addEdge
            (addNode
              (addNode
                (addNode
                  (addNode
                    (addNode (addNode {} { node_id := "A", node_type := "scene" })
                      { node_id := "E1", node_type := "ending" })
                    { node_id := "E2", node_type := "ending" })
                  { node_id := "E3", node_type := "ending" })
                { node_id := "E4", node_type := "ending" })
              { node_id := "E5", node_type := "ending" })
            { from_node := "A", to_node := "E1", probability := 1004/10000 })
          { from_node := "A", to_node := "E2", probability := 1004/10000 })
        { from_node := "A", to_node := "E3", probability := 1004/10000 })
      { from_node := "A", to_node := "E4", probability := 1004/10000 })
    { from_node := "A", to_node := "E5", probability := 5984/10000 }

/-- **C1 counterexample.** Five reachable endings with percentages 10.04
(×4) and 59.84: every value rounds down, the returned values sum to 99.8,
and |99.8 − 100| = 0.2 exceeds the claimed ±0.1 tolerance. -/
theorem claim_C1_counterexample :
    calculateEndingProbabilities gC1x "A" [] [] =
      .ok [("E1", 10), ("E2", 10), ("E3", 10), ("E4", 10), ("E5", 299/5)] ∧
    ((10 : ℚ) + (10 + (10 + (10 + (299/5 + 0))))) = 499/5 ∧
    ¬(|(499/5 : ℚ) - 100| ≤ 1/10) := by
  have hpbe : pathsByEndingOf gC1x "A" =
      [("E1", [["A", "E1"]]), ("E2", [["A", "E2"]]), ("E3", [["A", "E3"]]),
       ("E4", [["A", "E4"]]), ("E5", [["A", "E5"]])] := by decide
  have hfind : findPathsToEndings gC1x "A" = .ok
      [("E1", [["A", "E1"]]), ("E2", [["A", "E2"]]), ("E3", [["A", "E3"]]),
       ("E4", [["A", "E4"]]), ("E5", [["A", "E5"]])] := by
    unfold findPathsToEndings
    rw [if_neg (by decide), if_neg (by decide), hpbe]
  refine ⟨?_, by norm_num, by norm_num [abs_le]⟩
  unfold calculateEndingProbabilities
  rw [hfind]
  dsimp only
  rw [if_neg (by decide)]
  have hew : endingWeights gC1x
      [("E1", [["A", "E1"]]), ("E2", [["A", "E2"]]), ("E3", [["A", "E3"]]),
       ("E4", [["A", "E4"]]), ("E5", [["A", "E5"]])] [] [] =
      [("E1", 1004/10000), ("E2", 1004/10000), ("E3", 1004/10000),
       ("E4", 1004/10000), ("E5", 5984/10000)] := by
    simp [endingWeights, maxListD, pathWeight, edgeLookup, gC1x, addEdge,
      addNode, setEdgeL, setNodeL, List.find?]
  rw [hew]
  rw [if_pos (by norm_num)]
  simp only [List.map_cons, List.map_nil]
  norm_num [round1, roundHalfEven]

/-- Witness for C1 at a concrete graph: a single ending queried from
itself gets probability 100.0, and the proved tolerance bound holds. -/
theorem claim_C1_witness :
    calculateEndingProbabilities gOneEnding "E" [] [] = .ok [("E", 100)] ∧
    |(([("E", (100 : ℚ))].map (fun p => p.2)).sum - 100)| ≤
      (([("E", (100 : ℚ))].length : ℚ)) * (1/20) := by
  have hpbe : pathsByEndingOf gOneEnding "E" = [("E", [["E"]])] := by decide
  have hfind : findPathsToEndings gOneEnding "E" = .ok [("E", [["E"]])] := by
    unfold findPathsToEndings
    rw [if_neg (by decide), if_neg (by decide), hpbe]
  have hew : endingWeights gOneEnding [("E", [["E"]])] [] [] = [("E", 1)] := by
    simp [endingWeights, maxListD, pathWeight]
  have hcalc : calculateEndingProbabilities gOneEnding "E" [] [] =
      .ok [("E", 100)] := by
    unfold calculateEndingProbabilities
    rw [hfind]
    dsimp only
    rw [if_neg (by decide), hew, if_pos (by norm_num)]
    simp only [List.map_cons, List.map_nil]
    norm_num [round1, roundHalfEven]
  obtain ⟨l, hl, _, _, hbound, _⟩ :=
    claim_C1 gOneEnding "E" [] [] (by decide)
      (by intro e he; simp [gOneEnding, addNode] at he)
  have hleq : l = [("E", (100 : ℚ))] := by
    rw [hcalc] at hl
    exact (Except.ok.injEq _ _).mp hl.symm
  refine ⟨hcalc, ?_⟩
  have hTpos : 0 < (List.map (fun p => p.2)
      (endingWeights gOneEnding (pathsByEndingOf gOneEnding "E") [] [])).sum := by
    rw [hpbe, hew]
    norm_num
  have := hbound hTpos
  rw [hleq] at this
  exact this

/-! ## Narrative analyzer (`services/narrative_analyzer.py`, models in
`models/action.py`)

Regular-expression matching is abstracted by an oracle
`m : pattern → message → Bool` (the tables below hold the source's pattern
strings verbatim; their compilation at startup succeeds, a fact of the
source). The only dynamically built patterns are the four NPC-target
patterns; `re.compile`/`re.search` on them can raise `re.error`. Compile
success is modelled *conservatively* by `npcCodeSafe` below: the model
takes the no-error path only where Python provably cannot raise, and raises
everywhere else, so the never-raises theorem is sound for the program and
model errors asserted by theorems are only at inputs verified to raise. -/

/-- `models.action.ActionType` (a str-enum; values are the member names). -/
inductive ActionTypeT where
  | dialogue | exploration | combat | stealth | social | investigation
  | item_use | skill_check | decision | rest | travel | magic | neutral
deriving Repr, DecidableEq

/-- `models.action.MoralAlignment`. -/
inductive MoralAlignmentT where
  | heroic | good | neutral | selfish | villainous
deriving Repr, DecidableEq

/-- `models.action.KarmaChange`. -/
structure KarmaChange where
  action_code : String
  amount : Int
  reason : String
deriving Repr, DecidableEq

/-- `models.action.PlayerAction`. -/
structure PlayerAction where
  room_id : Int
  user_id : Int
  username : String
  message : String
  character_name : Option String := none
  character_class : Option String := none
  current_scene_type : Option String := none
  active_npcs : List String := []
deriving Repr, DecidableEq

/-- `models.action.ActionAnalysis` (dict-typed `npc_interactions` as an
association list). -/
structure ActionAnalysis where
  original_message : String
  action_type : ActionTypeT := .neutral
  moral_alignment : MoralAlignmentT := .neutral
  confidence : ℚ := 1/2
  target_npc : Option String := none
  detected_intent : Option String := none
  detected_emotion : Option String := none
  karma_actions : List KarmaChange := []
  total_karma_change : Int := 0
  triggers_decision : Option String := none
  triggers_reveal : Option String := none
  triggers_event : Option String := none
  npc_interactions : List (String × String) := []
  suggested_flags : List String := []
  coherence_score : ℚ := 1
  coherence_notes : List String := []
deriving Repr, DecidableEq

/-- `NarrativeAnalyzer.ACTION_PATTERNS` (verbatim pattern strings). -/
def ACTION_PATTERNS : List (ActionTypeT × List String) :=
  [ (.dialogue,
      ["\\b(hablo|pregunto|digo|le digo|respondo|converso|menciono|susurro|grito)\\b",
       "\\b(hablar|preguntar|decir|responder|conversar|mencionar)\\b",
       "^\".*\"$"]),
    (.combat,
      ["\\b(ataco|golpeo|disparo|lanzo|peleo|lucho|defiendo)\\b",
       "\\b(atacar|golpear|disparar|lanzar|pelear|luchar|defender)\\b",
       "\\b(espada|arco|hacha|daga|magia ofensiva)\\b"]),
    (.stealth,
      ["\\b(me escondo|me oculto|sigilosamente|en las sombras|sin ser visto)\\b",
       "\\b(esconder|ocultar|sigilo|sombras|infiltrar)\\b",
       "\\b(robo|hurto|pickpocket)\\b"]),
    (.exploration,
      ["\\b(exploro|examino|inspecciono|busco|miro|observo|registro)\\b",
       "\\b(explorar|examinar|inspeccionar|buscar|mirar|observar)\\b",
       "\\b(habitación|cuarto|lugar|zona|área)\\b"]),
    (.investigation,
      ["\\b(investigo|analizo|estudio|descifro|leo)\\b",
       "\\b(investigar|analizar|estudiar|descifrar|leer)\\b",
       "\\b(pista|evidencia|prueba|documento|carta)\\b"]),
    (.social,
      ["\\b(persuado|intimido|engaño|seduzco|negocio|convenzo)\\b",
       "\\b(persuadir|intimidar|engañar|seducir|negociar|convencer)\\b"]),
    (.magic,
      ["\\b(lanzo un hechizo|uso magia|conjuro|invoco|canalizo)\\b",
       "\\b(hechizo|magia|conjuro|invocación|ritual)\\b"]),
    (.item_use,
      ["\\b(uso|utilizo|aplico|bebo|como|equipo)\\b.*\\b(poción|objeto|item|arma|armadura)\\b",
       "\\b(saco|tomo|agarro|cojo)\\b.*\\b(de mi|del|de la)\\b"]),
    (.rest,
      ["\\b(descanso|duermo|espero|me siento|acampo)\\b",
       "\\b(descansar|dormir|esperar|sentarse|acampar)\\b"]),
    (.travel,
      ["\\b(voy|camino|viajo|me dirijo|corro|huyo)\\b",
       "\\b(ir|caminar|viajar|dirigirse|correr|huir)\\b",
       "\\b(hacia|hasta|al|a la|norte|sur|este|oeste)\\b"]) ]

/-- `NarrativeAnalyzer.MORAL_PATTERNS`. -/
def MORAL_PATTERNS : List (MoralAlignmentT × List String) :=
  [ (.heroic,
      ["\\b(salvo|protejo|defiendo|ayudo|sacrifico)\\b",
       "\\b(inocente|débil|indefenso|necesitado)\\b",
       "\\b(justicia|honor|verdad|bien)\\b"]),
    (.good,
      ["\\b(ayudo|comparto|dono|perdono|curo)\\b",
       "\\b(amable|gentil|generoso|compasivo)\\b"]),
    (.selfish,
      ["\\b(robo|engaño|miento|oculto|escondo)\\b",
       "\\b(para mí|beneficio propio|mi ganancia)\\b",
       "\\b(soborno|chantaje|extorsión)\\b"]),
    (.villainous,
      ["\\b(mato|asesino|torturo|destruyo|traiciono)\\b",
       "\\b(inocente|indefenso|desarmado)\\b",
       "\\b(crueldad|maldad|venganza ciega)\\b"]) ]

/-- `NarrativeAnalyzer.KARMA_PATTERNS`. -/
def KARMA_PATTERNS : List (String × List String) :=
  [ ("helped_innocent",
      ["\\b(ayudo|salvo|protejo|defiendo)\\b.*\\b(inocente|civil|niño|anciano|débil)\\b"]),
    ("showed_mercy",
      ["\\b(perdono|dejo ir|muestro piedad|no mato)\\b",
       "\\b(misericordia|clemencia|compasión)\\b"]),
    ("kept_promise",
      ["\\b(cumplo|mantengo)\\b.*\\b(promesa|palabra|juramento)\\b"]),
    ("donated_to_poor",
      ["\\b(dono|doy|regalo|comparto)\\b.*\\b(pobre|necesitado|mendigo)\\b",
       "\\b(caridad|limosna)\\b"]),
    ("lied_for_gain",
      ["\\b(miento|engaño)\\b.*\\b(para|conseguir|obtener|beneficio)\\b"]),
    ("stole",
      ["\\b(robo|hurto|me llevo)\\b.*\\b(sin|que no)\\b"]),
    ("killed_unarmed",
      ["\\b(mato|asesino)\\b.*\\b(desarmado|indefenso|rendido)\\b"]),
    ("betrayed_ally",
      ["\\b(traiciono|abandono|vendo)\\b.*\\b(aliado|compañero|amigo)\\b"]),
    ("broke_promise",
      ["\\b(rompo|incumplo)\\b.*\\b(promesa|palabra|juramento)\\b"]) ]

/-- `NarrativeAnalyzer.NPC_INTERACTION_PATTERNS`. -/
def NPC_INTERACTION_PATTERNS : List (String × List String) :=
  [ ("friendly", ["\\b(amablemente|cortésmente|con respeto|sonrío)\\b"]),
    ("hostile", ["\\b(amenaz|intimi|agresi|hostil|con desprecio)\\b"]),
    ("deceptive", ["\\b(miento|engaño|oculto la verdad|disimulo)\\b"]),
    ("confrontation", ["\\b(confronto|acuso|encaro|exijo)\\b"]),
    ("seductive", ["\\b(seduz|coquete|encant|atraigo)\\b"]),
    ("professional", ["\\b(formalmente|profesionalmente|negocios)\\b"]) ]

/-- `intent_patterns` table in `_detect_intent`. -/
def intentPatterns : List (String × String) :=
  [ ("interrogate", "\\b(pregunt[oa]|interrog|cuestion)\\b"),
    ("persuade", "\\b(convenc|persuad|negoci)\\b"),
    ("threaten", "\\b(amenaz|intimi|adviert)\\b"),
    ("gather_info", "\\b(averig|descubr|investig|busc)\\b.*\\b(información|pistas|verdad)\\b"),
    ("help", "\\b(ayud|asist|socorr)\\b"),
    ("attack", "\\b(atac|golpe|luch|pele)\\b"),
    ("hide", "\\b(escond|ocult|escondi)\\b"),
    ("observe", "\\b(observ|mir|examin|estudi)\\b"),
    ("negotiate", "\\b(negoci|trat|acuerd|pacta)\\b"),
    ("deceive", "\\b(engañ|ment|fals)\\b") ]

/-- `default_intents` table in `_detect_intent`. -/
def defaultIntents : List (ActionTypeT × String) :=
  [ (.dialogue, "communicate"), (.combat, "attack"), (.stealth, "hide"),
    (.exploration, "explore"), (.investigation, "gather_info") ]

/-- `trigger_patterns` table in `_check_decision_triggers`. -/
def triggerPatterns : List (String × String) :=
  [ ("confrontation", "\\b(acuso|confronto|encaro|exijo saber)\\b"),
    ("alliance", "\\b(me uno|acepto|hago trato|alianza)\\b"),
    ("betrayal", "\\b(traiciono|vendo|revelo secreto)\\b"),
    ("trust", "\\b(confío|creo|le doy)\\b.*\\b(en|a)\\b"),
    ("refuse", "\\b(rechazo|me niego|no acepto)\\b") ]

/-- `scene_expected_actions` table in `_evaluate_coherence`. -/
def sceneExpectedActions : List (String × List ActionTypeT) :=
  [ ("narrative", [.dialogue, .exploration]),
    ("combat", [.combat, .magic]),
    ("puzzle", [.investigation, .item_use]),
    ("social", [.dialogue, .social]),
    ("revelation", [.dialogue, .investigation]),
    ("decision", [.dialogue, .decision]) ]

/-- Python `str.strip()` (whitespace at both ends). -/
def pyStrip (s : String) : String :=
  String.mk ((s.data.dropWhile Char.isWhitespace).reverse.dropWhile
    Char.isWhitespace).reverse

/-- Conservative model of `re.compile` succeeding on all four patterns
interpolated from an NPC code (`\ba {code}\b`, `\bcon {code}\b`,
`\ba l[ao]s? {code}\b`, `\bel/la {code}\b`): true when every character of
the code is an ASCII alphanumeric, space, underscore or hyphen. Such
characters are plain regex literals in the positions where the code is
spliced (no metacharacter, repeat, escape, class or group syntax can
arise), so Python cannot raise on these patterns. The model treats every
other code as raising `re.error`; this over-approximates Python's error set
(e.g. the code `x+` compiles in Python), so the no-error theorem below is
sound for the program, while model errors asserted by theorems are only at
inputs that concretely raise in Python (the code `(` gives an unbalanced
group, `**` a multiple repeat). -/
def npcCodeSafe (code : String) : Bool :=
  code.data.all (fun c => c.isAlphanum || c = ' ' || c = '_' || c = '-')

/-- Python `needle in hay` on strings: contiguous-substring test (the
empty needle is contained in everything, as in Python). -/
def listIsInfixOf (needle : List Char) : List Char → Bool
  | [] => needle.isEmpty
  | h :: t => needle.isPrefixOf (h :: t) || listIsInfixOf needle t

/-- The four interpolated patterns of `_detect_target_npc`. -/
def npcPatterns (npcCode : String) : List String :=
  [ "\\ba " ++ npcCode ++ "\\b",
    "\\bcon " ++ npcCode ++ "\\b",
    "\\ba l[ao]s? " ++ npcCode ++ "\\b",
    "\\bel/la " ++ npcCode ++ "\\b" ]

/-- `NarrativeAnalyzer._detect_target_npc` (takes the already lowered
message; lowers it once more like the source). The substring check comes
first, as in the source, so a code occurring in the message is returned
before any pattern is compiled; otherwise the first `re.search` over the
interpolated patterns raises unless the code is safe (see `npcCodeSafe`),
and with a safe code the patterns are tried in order, stopping at the first
match. -/
def detectTargetNpc (m : String → String → Bool) (messageLower : String) :
    List String → Except String (Option String)
  | [] => .ok Option.none
  | npc :: rest =>
    if listIsInfixOf (pyLower npc).data messageLower.data then .ok (some npc)
    else if ¬ npcCodeSafe npc then .error "re.error"
    else if (npcPatterns npc).any (fun p => m p messageLower) then .ok (some npc)
    else detectTargetNpc m messageLower rest

/-- First element of maximal value, Python `max(scores, key=scores.get)`
over a dict built in iteration order. -/
def pickMaxQ {α : Type} (l : List (α × ℚ)) : Option (α × ℚ) :=
  l.foldl
    (fun best c =>
      match best with
      | Option.none => some c
      | some b => if c.2 > b.2 then some c else some b)
    Option.none

/-- `NarrativeAnalyzer._classify_action_type`. -/
def classifyActionType (m : String → String → Bool) (message : String) :
    ActionTypeT × ℚ :=
  let scores := ACTION_PATTERNS.filterMap (fun ap =>
    let matchCount := (ap.2.filter (fun p => m p message)).length
    if matchCount > 0 then some (ap.1, (matchCount : ℚ) / (ap.2.length : ℚ))
    else Option.none)
  match pickMaxQ scores with
  | Option.none => (.neutral, 1/2)
  | some best => (best.1, min (best.2 * 2) 1)

/-- `NarrativeAnalyzer._classify_moral_alignment`. -/
def classifyMoralAlignment (m : String → String → Bool) (message : String) :
    MoralAlignmentT × ℚ :=
  let scores := MORAL_PATTERNS.filterMap (fun ap =>
    let matchCount := (ap.2.filter (fun p => m p message)).length
    if matchCount > 0 then some (ap.1, (matchCount : ℚ)) else Option.none)
  match pickMaxQ scores with
  | Option.none => (.neutral, 8/10)
  | some best => (best.1, min (best.2 * (3/10) + 1/2) 1)

/-- `NarrativeAnalyzer._detect_karma_actions` (first matching pattern per
action code contributes one record). -/
def detectKarmaActions (m : String → String → Bool) (message : String) :
    List KarmaChange :=
  KARMA_PATTERNS.filterMap (fun kp =>
    if kp.2.any (fun p => m p message) then
      some { action_code := kp.1
             amount := (alistGet KARMA_ACTIONS kp.1).getD 0
             reason := "Acción detectada: " ++ kp.1 }
    else Option.none)

/-- `NarrativeAnalyzer._detect_npc_interactions`. In the source each
matching interaction style overwrites `interactions[target]`, so the last
matching style wins; a detected target with no matching style maps to
`"neutral"`. -/
def detectNpcInteractions (m : String → String → Bool) (message : String)
    (activeNpcs : List String) : Except String (List (String × String)) :=
  match detectTargetNpc m (pyLower message) activeNpcs with
  | .error e => .error e
  | .ok Option.none => .ok []
  | .ok (some target) =>
    let matched := NPC_INTERACTION_PATTERNS.filter
      (fun ip => ip.2.any (fun p => m p message))
    match matched.getLast? with
    | some ip => .ok [(target, ip.1)]
    | Option.none => .ok [(target, "neutral")]

/-- `dict.get` on a table keyed by action type. -/
def alistGet2 (l : List (ActionTypeT × String)) (k : ActionTypeT) :
    Option String :=
  match l.find? (fun p => p.1 == k) with
  | some p => some p.2
  | Option.none => Option.none

/-- `NarrativeAnalyzer._detect_intent`. -/
def detectIntent (m : String → String → Bool) (message : String)
    (actionType : ActionTypeT) : Option String :=
  match intentPatterns.find? (fun ip => m ip.2 message) with
  | some ip => some ip.1
  | Option.none => alistGet2 defaultIntents actionType

/-- `NarrativeAnalyzer._evaluate_coherence`. -/
def evaluateCoherence (actionType : ActionTypeT)
    (sceneType : Option String) : ℚ × List String :=
  if ¬ pyTruthyStrOpt sceneType then (1, [])
  else
    let sc := sceneType.getD ""
    let expected := ((sceneExpectedActions.find? (fun p => p.1 == sc)).map
      (fun p => p.2)).getD []
    if actionType ∈ expected then (1, ["Acción coherente con la escena"])
    else if actionType = .dialogue ∨ actionType = .neutral then
      (9/10, ["Acción generalmente aceptable"])
    else if actionType = .combat ∧ sc ≠ "combat" then
      (6/10, ["Acción de combate en escena no combativa - puede escalar la situación"])
    else if actionType = .stealth ∧ sc = "social" then
      (7/10, ["Intento de sigilo en situación social - puede parecer sospechoso"])
    else (8/10, ["Acción no típica para esta escena pero posible"])

/-- `NarrativeAnalyzer._check_decision_triggers`. -/
def checkDecisionTriggers (m : String → String → Bool) (message : String) :
    Option String :=
  match triggerPatterns.find? (fun tp => m tp.2 message) with
  | some tp => some ("trigger_" ++ tp.1)
  | Option.none => Option.none

/-- `NarrativeAnalyzer.analyze`, relative to the match oracle `m`; the only
raising step is NPC-target detection (run twice, as in the source: once
directly and once inside `_detect_npc_interactions`). -/
def analyze (m : String → String → Bool) (action : PlayerAction) :
    Except String ActionAnalysis :=
  let message := pyLower (pyStrip action.message)
  let tc := classifyActionType m message
  let ac := classifyMoralAlignment m message
  let karmaActions := detectKarmaActions m message
  match detectTargetNpc m (pyLower message) action.active_npcs with
  | .error e => .error e
  | .ok targetNpc =>
    match detectNpcInteractions m message action.active_npcs with
    | .error e => .error e
    | .ok npcInteractions =>
      let coh := evaluateCoherence tc.1 action.current_scene_type
      .ok { original_message := action.message
            action_type := tc.1
            moral_alignment := ac.1
            confidence := (tc.2 + ac.2) / 2
            target_npc := targetNpc
            detected_intent := detectIntent m message tc.1
            karma_actions := karmaActions
            total_karma_change := (karmaActions.map (fun k => k.amount)).sum
            triggers_decision := checkDecisionTriggers m message
            npc_interactions := npcInteractions
            coherence_score := coh.1
            coherence_notes := coh.2 }

lemma detectTargetNpc_ok (m : String → String → Bool) (msg : String)
    {npcs : List String}
    (h : ∀ npc ∈ npcs, npcCodeSafe npc = true) :
    ∃ t, detectTargetNpc m msg npcs = .ok t := by
  induction npcs with
  | nil => exact ⟨Option.none, rfl⟩
  | cons npc rest ih =>
    unfold detectTargetNpc
    by_cases hsub : listIsInfixOf (pyLower npc).data msg.data
    · exact ⟨some npc, by rw [if_pos hsub]⟩
    · rw [if_neg hsub,
        if_neg (not_not_intro (h npc (List.mem_cons_self _ _)))]
      by_cases hm : (npcPatterns npc).any (fun p => m p msg)
      · exact ⟨some npc, by rw [if_pos hm]⟩
      · rw [if_neg hm]
        exact ih (fun q hq => h q (List.mem_cons_of_mem _ hq))

lemma detectNpcInteractions_ok (m : String → String → Bool) (msg : String)
    {npcs : List String}
    (h : ∀ npc ∈ npcs, npcCodeSafe npc = true) :
    ∃ l, detectNpcInteractions m msg npcs = .ok l := by
  unfold detectNpcInteractions
  obtain ⟨t, ht⟩ := detectTargetNpc_ok m (pyLower msg) h
  rw [ht]
  cases t with
  | none => exact ⟨[], rfl⟩
  | some target =>
    rcases hlast : (NPC_INTERACTION_PATTERNS.filter
        (fun ip => ip.2.any (fun p => m p msg))).getLast? with _ | ip
    · exact ⟨[(target, "neutral")], by dsimp only; rw [hlast]⟩
    · exact ⟨[(target, ip.1)], by dsimp only; rw [hlast]⟩

lemma filterMap_const_none {α β : Type} (l : List α) :
    l.filterMap (fun _ => (Option.none : Option β)) = [] := by
  induction l with
  | nil => rfl
  | cons x xs ih => simpa [List.filterMap_cons] using ih

lemma classifyActionType_nomatch {m : String → String → Bool} {msg : String}
    (h : ∀ p, m p msg = false) :
    classifyActionType m msg = (.neutral, 1/2) := by
  simp [classifyActionType, h, pickMaxQ, filterMap_const_none]

lemma classifyMoralAlignment_nomatch {m : String → String → Bool} {msg : String}
    (h : ∀ p, m p msg = false) :
    classifyMoralAlignment m msg = (.neutral, 8/10) := by
  simp [classifyMoralAlignment, h, pickMaxQ, filterMap_const_none]

lemma detectKarmaActions_nomatch {m : String → String → Bool} {msg : String}
    (h : ∀ p, m p msg = false) : detectKarmaActions m msg = [] := by
  simp [detectKarmaActions, h]

lemma detectTargetNpc_none (m : String → String → Bool) (msg : String)
    {npcs : List String}
    (hok : ∀ npc ∈ npcs, npcCodeSafe npc = true)
    (h : ∀ p, m p msg = false)
    (hsub : ∀ npc ∈ npcs, listIsInfixOf (pyLower npc).data msg.data = false) :
    detectTargetNpc m msg npcs = .ok Option.none := by
  induction npcs with
  | nil => rfl
  | cons npc rest ih =>
    unfold detectTargetNpc
    rw [if_neg (by rw [hsub npc (List.mem_cons_self _ _)]; exact Bool.false_ne_true),
      if_neg (not_not_intro (hok npc (List.mem_cons_self _ _))),
      if_neg (by simp [h])]
    exact ih (fun q hq => hok q (List.mem_cons_of_mem _ hq))
      (fun q hq => hsub q (List.mem_cons_of_mem _ hq))

/-- Fixture oracle: no pattern matches (true of the compiled tables on the
messages used in the concrete statements below, e.g. the empty message). -/
def mFalse : String → String → Bool := fun _ _ => false

/-- Fixture: a player action whose active NPC code `(` makes the
interpolated target pattern `\ba (\b` an invalid regex. -/
def paContra : PlayerAction :=
  { room_id := 1, user_id := 1, username := "u", message := "",
    active_npcs := ["("] }

/-- **C8 counterexample.** With an active NPC code `(`, `analyze` raises
`re.error` while building the target-detection pattern — it does not hold
for arbitrary NPC code strings. -/
theorem claim_C8_counterexample :
    analyze mFalse paContra = .error "re.error" := rfl

/-- **C8 (amended).** Provided every active NPC code consists only of
ordinary literal characters (ASCII alphanumeric, space, underscore,
hyphen) — a regime in which `re.compile` cannot fail on the interpolated
target patterns — `analyze` never raises; and when no pattern of any
category matches the message (including the NPC substring/phrase checks),
it returns neutral action type, neutral moral alignment, zero total karma
change and no target NPC. -/
theorem claim_C8 (m : String → String → Bool) (action : PlayerAction)
    (hok : ∀ npc ∈ action.active_npcs, npcCodeSafe npc = true) :
    (∃ a, analyze m action = .ok a) ∧
    ((∀ p, m p (pyLower (pyStrip action.message)) = false) →
     (∀ p, m p (pyLower (pyLower (pyStrip action.message))) = false) →
     (∀ npc ∈ action.active_npcs,
        listIsInfixOf (pyLower npc).data
          (pyLower (pyLower (pyStrip action.message))).data = false) →
     ∃ a, analyze m action = .ok a ∧
       a.action_type = ActionTypeT.neutral ∧
       a.moral_alignment = MoralAlignmentT.neutral ∧
       a.total_karma_change = 0 ∧
       a.target_npc = Option.none) := by
  constructor
  · obtain ⟨t, ht⟩ :=
      detectTargetNpc_ok m (pyLower (pyLower (pyStrip action.message))) hok
    obtain ⟨il, hil⟩ :=
      detectNpcInteractions_ok m (pyLower (pyStrip action.message)) hok
    unfold analyze
    dsimp only
    rw [ht, hil]
    exact ⟨_, rfl⟩
  · intro hm1 hm2 hsub
    have ht := detectTargetNpc_none m (pyLower (pyLower (pyStrip action.message)))
      hok hm2 hsub
    have hil : detectNpcInteractions m (pyLower (pyStrip action.message))
        action.active_npcs = .ok [] := by
      unfold detectNpcInteractions
      rw [ht]
    unfold analyze
    dsimp only
    rw [ht, hil, classifyActionType_nomatch hm1, classifyMoralAlignment_nomatch hm1,
      detectKarmaActions_nomatch hm1]
    exact ⟨_, rfl, rfl, rfl, rfl, rfl⟩

/-- Fixture: empty message with the ordinary NPC code `varen`. -/
def paW : PlayerAction :=
  { room_id := 1, user_id := 1, username := "u", message := "",
    active_npcs := ["varen"] }

/-- Witness for C8 at a concrete input: the empty message with NPC `varen`
analyzes without error to the neutral defaults. -/
theorem claim_C8_witness :
    (analyze mFalse paW).map
      (fun a => (a.action_type, a.moral_alignment, a.total_karma_change,
        a.target_npc)) =
    .ok (ActionTypeT.neutral, MoralAlignmentT.neutral, 0, Option.none) := by
  obtain ⟨a, ha, h1, h2, h3, h4⟩ :=
    (claim_C8 mFalse paW (by decide)).2 (fun p => rfl) (fun p => rfl)
      (by decide)
  rw [ha]
  simp [Except.map, h1, h2, h3, h4]

end Rolia
